import Mathlib

/-!
Shallow embedding of the AstrBot long-term-memory subsystem
(`astrbot/core/long_term_memory/{db,writer,reader,policy,models}.py`).

Modelling conventions:
* Timestamps are natural numbers (`Time`), standing for UTC seconds.
* Row ids (`event_id`, `memory_id`, `relation_id`), which the source generates
  as fresh UUID strings, are modelled as naturals drawn from a fresh-id
  counter `next_id` held in the database state.
* `float` confidence/importance values are modelled as exact rationals `ℚ`.
* The four SQL tables are lists of records; an SQL `INSERT` appends at the
  end of the list, an `UPDATE ... WHERE` maps a field update over the rows
  matching the `WHERE` clause, and `ORDER BY`/`LIMIT` are modelled by a
  sort (`List.insertionSort` with the order-by key) followed by `List.take`.
* An event's opaque `content` dict is abstracted to the message text that
  `MemoryWriter._build_event_message_text` would extract from it.
* Python string normalisation (`str.lower`, `re.sub`, `str.strip`) is
  modelled by structurally recursive char-list functions with the same
  behaviour on the ASCII strings the keys are made of.
-/

namespace LTM

abbrev Time := Nat

/-- Character-list `take`, modelling Python slicing `s[:n]`. -/
def strTake (s : String) (n : Nat) : String := String.mk (s.data.take n)

/-- ASCII lower-casing, modelling Python `str.lower()`. -/
def strLower (s : String) : String := String.mk (s.data.map Char.toLower)

/-- Strip leading and trailing whitespace, modelling Python `str.strip()`. -/
def strStrip (s : String) : String :=
  String.mk (((s.data.dropWhile Char.isWhitespace).reverse.dropWhile Char.isWhitespace).reverse)

/-- Keep word characters (alphanumeric or underscore) and whitespace,
modelling `re.sub(r"[^\w\s]", "", s)` on ASCII input. -/
def keepWordAndSpace (s : String) : String :=
  String.mk (s.data.filter (fun c => c.isAlphanum || c = '_' || c.isWhitespace))

/-- Replace each maximal whitespace run by `sep`, modelling
`re.sub(r"\s+", sep, s)`.  The flag records whether the previous
character belonged to a whitespace run. -/
def collapseWsAux (sep : Char) : Bool → List Char → List Char
  | _, [] => []
  | prevWs, c :: rest =>
    if c.isWhitespace then
      (if prevWs then [] else [sep]) ++ collapseWsAux sep true rest
    else
      c :: collapseWsAux sep false rest

/-- `re.sub(r"\s+", "_", s)`. -/
def collapseWsUnderscore (s : String) : String :=
  String.mk (collapseWsAux '_' false s.data)

/-- `" ".join(s.split())`: strip, then collapse inner whitespace runs to a
single space. -/
def squeezeSpaces (s : String) : String :=
  String.mk (collapseWsAux ' ' false (strStrip s).data)

/-- Python truthiness of an optional string: `None` and `""` are falsy. -/
def optStrFalsy : Option String → Bool
  | none => true
  | some s => s = ""

/-- `str(o or "")` for an optional string. -/
def optStr (o : Option String) : String := o.getD ""

/-- Helper for `dedupFirst`: drop elements already seen. -/
def dedupFirstAux (seen : List Nat) : List Nat → List Nat
  | [] => []
  | x :: rest =>
    if x ∈ seen then dedupFirstAux seen rest else x :: dedupFirstAux (x :: seen) rest

/-- Order-preserving deduplication keeping first occurrences, modelling
`list(dict.fromkeys(xs))`. -/
def dedupFirst (l : List Nat) : List Nat := dedupFirstAux [] l

/-! ## Data model (`models.py`) -/

/-- Raw source event recorded for memory extraction (`MemoryEvent`). -/
structure MemoryEvent where
  event_id : Nat
  scope : String
  scope_id : String
  source_type : String
  source_role : String
  content : String
  platform_id : Option String
  session_id : Option String
  processed : Bool
  attempt_count : Nat
  next_retry_at : Option Time
  last_error : Option String
  dead_letter : Bool
  created_at : Time
deriving DecidableEq, Repr

/-- Normalized memory unit — a single structured fact (`MemoryItem`). -/
structure MemoryItem where
  memory_id : Nat
  scope : String
  scope_id : String
  type : String
  fact : String
  fact_key : String
  subject_key : Option String
  confidence : ℚ
  importance : ℚ
  evidence_count : Nat
  ttl_days : Option Int
  status : String
  valid_at : Option Time
  invalid_at : Option Time
  superseded_by : Option Nat
  consolidation_count : Nat
  created_at : Time
  updated_at : Time
deriving DecidableEq, Repr

/-- Link from a memory item to a source event (`MemoryEvidence`). -/
structure MemoryEvidence where
  memory_id : Nat
  event_id : Nat
  extraction_method : String
deriving DecidableEq, Repr

/-- Structured relation derived from memory items (`MemoryRelation`). -/
structure MemoryRelation where
  relation_id : Nat
  scope : String
  scope_id : String
  subject_key : String
  predicate : String
  object_text : String
  confidence : ℚ
  evidence_count : Nat
  status : String
  valid_at : Option Time
  invalid_at : Option Time
  superseded_by : Option Nat
  memory_id : Option Nat
  memory_type : Option String
  created_at : Time
  updated_at : Time
deriving DecidableEq, Repr

/-! ## Policy (`policy.py`) -/

/-- `MemoryWritePolicy` (the `eviction_buffer_ratio` field is called
`eviction_buffer` here). -/
structure MemoryWritePolicy where
  enable : Bool
  mode : String
  min_confidence : ℚ
  min_evidence_count : Nat
  allowed_types : List String
  max_writes_per_session : Nat
  max_writes_per_hour : Nat
  max_items_per_scope : Nat
  require_approval_types : List String
  eviction_enabled : Bool
  eviction_buffer : ℚ
  enable_temporal_supersede : Bool
  temporal_conflict_types : List String
deriving DecidableEq, Repr

/-- `MemoryReadPolicy`. -/
structure MemoryReadPolicy where
  enable : Bool
  max_items : Nat
  max_tokens : Nat
  max_per_type : Nat
  min_confidence : ℚ
  recency_weight : ℚ
  importance_weight : ℚ
  similarity_weight : ℚ
  strategy : String
  include_relations : Bool
  max_relation_lines : Nat
  relation_use_vector : Bool
  vector_quantization : String
  relation_only_mode : Bool
deriving DecidableEq, Repr

/-- `DEFAULT_RETENTION_DAYS` from `policy.py`. -/
def DEFAULT_RETENTION_DAYS : String → Option Int
  | "profile" => some (-1)
  | "preference" => some 90
  | "task_state" => some 7
  | "constraint" => some (-1)
  | "episode" => some 30
  | _ => none

/-! ## Database state and `MemoryDB` operations (`db.py`) -/

/-- The persistent store: the four LTM tables plus a fresh-id counter. -/
structure DBState where
  events : List MemoryEvent
  items : List MemoryItem
  evidence : List MemoryEvidence
  relations : List MemoryRelation
  next_id : Nat
deriving DecidableEq, Repr

/-- `MemoryDB.insert_event`: append one new event row. -/
def insert_event (st : DBState) (scope scope_id source_type source_role content : String)
    (platform_id session_id : Option String) (now : Time) : MemoryEvent × DBState :=
  let ev : MemoryEvent :=
    { event_id := st.next_id
      scope := scope
      scope_id := scope_id
      source_type := source_type
      source_role := source_role
      content := content
      platform_id := platform_id
      session_id := session_id
      processed := false
      attempt_count := 0
      next_retry_at := none
      last_error := none
      dead_letter := false
      created_at := now }
  (ev, { st with events := st.events ++ [ev], next_id := st.next_id + 1 })

/-- Order-by key of `get_unprocessed_events`:
`(coalesce(next_retry_at, created_at), created_at)` ascending. -/
def unprocessedOrder (a b : MemoryEvent) : Prop :=
  a.next_retry_at.getD a.created_at < b.next_retry_at.getD b.created_at ∨
    (a.next_retry_at.getD a.created_at = b.next_retry_at.getD b.created_at ∧
      a.created_at ≤ b.created_at)

instance : DecidableRel unprocessedOrder := fun a b => by
  unfold unprocessedOrder; infer_instance

/-- `MemoryDB.get_unprocessed_events`: unprocessed, non-dead-lettered events
whose retry time is unset or due, ordered and limited. -/
def get_unprocessed_events (st : DBState) (limit : Nat) (now : Time) : List MemoryEvent :=
  ((st.events.filter (fun e =>
      e.processed = false ∧ e.dead_letter = false ∧
        (e.next_retry_at = none ∨ ∃ t, e.next_retry_at = some t ∧ t ≤ now))).insertionSort
    unprocessedOrder).take limit

/-- `MemoryDB.mark_events_processed`. -/
def mark_events_processed (st : DBState) (event_ids : List Nat) : DBState :=
  { st with events := st.events.map (fun e =>
      if e.event_id ∈ event_ids then
        { e with processed := true, next_retry_at := none, last_error := none }
      else e) }

/-- The per-row update performed by `MemoryDB.mark_events_retry` on a
selected row (`processed = false`, `dead_letter = false`, id in the batch). -/
def retryUpdate (max_attempts base_delay_seconds max_delay_seconds : Nat) (safe_error : String)
    (now : Time) (e : MemoryEvent) : MemoryEvent :=
  let next_attempt := e.attempt_count + 1
  if max_attempts ≤ next_attempt then
    { e with attempt_count := next_attempt, last_error := some safe_error,
             dead_letter := true, next_retry_at := none }
  else
    { e with attempt_count := next_attempt, last_error := some safe_error,
             next_retry_at :=
               some (now + min max_delay_seconds (base_delay_seconds * 2 ^ (next_attempt - 1))) }

/-- `MemoryDB.mark_events_retry`: bump retry attempts, schedule backoff or
dead-letter.  Returns `(retried, dead_lettered)` counts with the new state. -/
def mark_events_retry (st : DBState) (event_ids : List Nat) (error : String)
    (max_attempts base_delay_seconds max_delay_seconds : Nat) (now : Time) :
    (Nat × Nat) × DBState :=
  let safe_error := strTake error 500
  let selected := fun (e : MemoryEvent) =>
    e.event_id ∈ event_ids ∧ e.processed = false ∧ e.dead_letter = false
  let retried := (st.events.filter (fun e =>
    selected e ∧ e.attempt_count + 1 < max_attempts)).length
  let dead := (st.events.filter (fun e =>
    selected e ∧ max_attempts ≤ e.attempt_count + 1)).length
  ((retried, dead),
    { st with events := st.events.map (fun e =>
        if selected e then
          retryUpdate max_attempts base_delay_seconds max_delay_seconds safe_error now e
        else e) })

/-- `MemoryDB.insert_item`. -/
def insert_item (st : DBState) (scope scope_id type fact fact_key : String)
    (subject_key : Option String) (confidence importance : ℚ) (evidence_count : Nat)
    (ttl_days : Option Int) (status : String) (valid_at invalid_at : Option Time)
    (superseded_by : Option Nat) (now : Time) : MemoryItem × DBState :=
  let item : MemoryItem :=
    { memory_id := st.next_id
      scope := scope
      scope_id := scope_id
      type := type
      fact := fact
      fact_key := fact_key
      subject_key := subject_key
      confidence := confidence
      importance := importance
      evidence_count := evidence_count
      ttl_days := ttl_days
      status := status
      valid_at := valid_at
      invalid_at := invalid_at
      superseded_by := superseded_by
      consolidation_count := 0
      created_at := now
      updated_at := now }
  (item, { st with items := st.items ++ [item], next_id := st.next_id + 1 })

/-- `MemoryDB.get_item_by_fact_key`. -/
def get_item_by_fact_key (st : DBState) (scope scope_id fact_key : String) :
    Option MemoryItem :=
  st.items.find? (fun it =>
    it.scope = scope ∧ it.scope_id = scope_id ∧ it.fact_key = fact_key)

/-- `MemoryDB.update_item` restricted to the keyword arguments the writer
pipeline actually passes (`fact`, `subject_key`, `confidence`, `importance`,
`evidence_count`, `status`); `none` means "argument not given". -/
def update_item (st : DBState) (memory_id : Nat) (fact subject_key : Option String)
    (confidence importance : Option ℚ) (evidence_count : Option Nat)
    (status : Option String) (now : Time) : DBState :=
  if fact = none ∧ subject_key = none ∧ confidence = none ∧ importance = none ∧
      evidence_count = none ∧ status = none then st
  else
    { st with items := st.items.map (fun it =>
        if it.memory_id = memory_id then
          { it with
            fact := fact.getD it.fact
            subject_key := match subject_key with
              | some s => some s
              | none => it.subject_key
            confidence := confidence.getD it.confidence
            importance := importance.getD it.importance
            evidence_count := evidence_count.getD it.evidence_count
            status := status.getD it.status
            updated_at := now }
        else it) }

/-- `MemoryDB.count_items_for_scope`: active/shadow rows in the scope. -/
def count_items_for_scope (st : DBState) (scope scope_id : String) : Nat :=
  (st.items.filter (fun it =>
    it.scope = scope ∧ it.scope_id = scope_id ∧
      (it.status = "active" ∨ it.status = "shadow"))).length

/-- Row filter of `MemoryDB.get_conflicting_items_by_subject`. -/
def conflictFilter (scope scope_id type subject_key : String)
    (exclude_fact_key : Option String) (now : Time) (it : MemoryItem) : Prop :=
  it.scope = scope ∧ it.scope_id = scope_id ∧ it.type = type ∧
    it.subject_key = some subject_key ∧ it.status = "active" ∧
    (it.invalid_at = none ∨ ∃ t, it.invalid_at = some t ∧ now < t) ∧
    (∀ k, exclude_fact_key = some k → k ≠ "" → it.fact_key ≠ k)

instance (scope scope_id type subject_key : String) (exclude_fact_key : Option String)
    (now : Time) :
    DecidablePred (conflictFilter scope scope_id type subject_key exclude_fact_key now) :=
  fun it => by unfold conflictFilter; infer_instance

/-- Order-by of `get_conflicting_items_by_subject`: `updated_at` descending. -/
def updatedAtDesc (a b : MemoryItem) : Prop := b.updated_at ≤ a.updated_at

instance : DecidableRel updatedAtDesc := fun a b => by
  unfold updatedAtDesc; infer_instance

/-- `MemoryDB.get_conflicting_items_by_subject`: currently valid active items
conflicting by subject key, newest first, limited. -/
def get_conflicting_items_by_subject (st : DBState) (scope scope_id type subject_key : String)
    (exclude_fact_key : Option String) (limit : Nat) (now : Time) : List MemoryItem :=
  if subject_key = "" then []
  else
    ((st.items.filter (fun it =>
        conflictFilter scope scope_id type subject_key exclude_fact_key now it)).insertionSort
      updatedAtDesc).take limit

/-- `MemoryDB.supersede_items`: flip the listed still-active items to
`superseded`.  Returns the affected row count with the new state. -/
def supersede_items (st : DBState) (memory_ids : List Nat) (superseded_by : Nat)
    (invalid_at : Option Time) (now : Time) : Nat × DBState :=
  if memory_ids = [] then (0, st)
  else
    let at_time := invalid_at.getD now
    let hit := fun (it : MemoryItem) => it.memory_id ∈ memory_ids ∧ it.status = "active"
    ((st.items.filter (fun it => hit it)).length,
      { st with items := st.items.map (fun it =>
          if hit it then
            { it with status := "superseded", invalid_at := some at_time,
                      superseded_by := some superseded_by, updated_at := at_time }
          else it) })

/-- `MemoryDB.insert_evidence`. -/
def insert_evidence (st : DBState) (memory_id event_id : Nat)
    (extraction_method : String) : DBState :=
  { st with evidence := st.evidence ++
      [{ memory_id := memory_id, event_id := event_id,
         extraction_method := extraction_method }] }

/-- `MemoryDB.get_existing_evidence_event_ids`: event ids in the batch that
are already linked to the memory item (the source returns them as a set;
list membership plays that role here). -/
def get_existing_evidence_event_ids (st : DBState) (memory_id : Nat)
    (event_ids : List Nat) : List Nat :=
  if event_ids = [] then []
  else
    (st.evidence.filter (fun ev =>
      ev.memory_id = memory_id ∧ ev.event_id ∈ event_ids)).map (fun ev => ev.event_id)

/-- Order-by of `get_eviction_candidates`: the composite score
`importance*0.4 + confidence*0.3` ascending, oldest `updated_at` first as
tiebreaker. -/
def evictionOrder (a b : MemoryItem) : Prop :=
  a.importance * 0.4 + a.confidence * 0.3 < b.importance * 0.4 + b.confidence * 0.3 ∨
    (a.importance * 0.4 + a.confidence * 0.3 = b.importance * 0.4 + b.confidence * 0.3 ∧
      a.updated_at ≤ b.updated_at)

instance : DecidableRel evictionOrder := fun a b => by
  unfold evictionOrder; infer_instance

/-- `MemoryDB.get_eviction_candidates`: lowest-priority active/shadow items. -/
def get_eviction_candidates (st : DBState) (scope scope_id : String) (limit : Nat) :
    List MemoryItem :=
  ((st.items.filter (fun it =>
      it.scope = scope ∧ it.scope_id = scope_id ∧
        (it.status = "active" ∨ it.status = "shadow"))).insertionSort
    evictionOrder).take limit

/-- Row filter of `get_active_items_for_scope`: status filter plus the
`valid_at`/`invalid_at` validity window at the target time. -/
def activeItemFilter (scope scope_id : String) (min_confidence : ℚ) (as_of : Option Time)
    (target_time : Time) (it : MemoryItem) : Prop :=
  it.scope = scope ∧ it.scope_id = scope_id ∧
    (if as_of = none then it.status = "active"
     else it.status = "active" ∨ it.status = "superseded") ∧
    min_confidence ≤ it.confidence ∧
    (it.valid_at = none ∨ ∃ t, it.valid_at = some t ∧ t ≤ target_time) ∧
    (it.invalid_at = none ∨ ∃ t, it.invalid_at = some t ∧ target_time < t)

instance (scope scope_id : String) (min_confidence : ℚ) (as_of : Option Time)
    (target_time : Time) :
    DecidablePred (activeItemFilter scope scope_id min_confidence as_of target_time) :=
  fun it => by unfold activeItemFilter; infer_instance

/-- Order-by of `get_active_items_for_scope`: importance descending, then
`updated_at` descending. -/
def activeItemOrder (a b : MemoryItem) : Prop :=
  b.importance < a.importance ∨ (b.importance = a.importance ∧ b.updated_at ≤ a.updated_at)

instance : DecidableRel activeItemOrder := fun a b => by
  unfold activeItemOrder; infer_instance

/-- `MemoryDB.get_active_items_for_scope` (with `target_time = as_of or now`). -/
def get_active_items_for_scope (st : DBState) (scope scope_id : String)
    (min_confidence : ℚ) (limit : Nat) (as_of : Option Time) (now : Time) :
    List MemoryItem :=
  let target_time := as_of.getD now
  ((st.items.filter (fun it =>
      activeItemFilter scope scope_id min_confidence as_of target_time it)).insertionSort
    activeItemOrder).take limit

/-- `MemoryDB.insert_relation`. -/
def insert_relation (st : DBState) (scope scope_id subject_key predicate object_text : String)
    (confidence : ℚ) (evidence_count : Nat) (status : String)
    (valid_at invalid_at : Option Time) (superseded_by : Option Nat)
    (memory_id : Option Nat) (memory_type : Option String) (now : Time) :
    MemoryRelation × DBState :=
  let rel : MemoryRelation :=
    { relation_id := st.next_id
      scope := scope
      scope_id := scope_id
      subject_key := subject_key
      predicate := predicate
      object_text := object_text
      confidence := confidence
      evidence_count := evidence_count
      status := status
      valid_at := valid_at
      invalid_at := invalid_at
      superseded_by := superseded_by
      memory_id := memory_id
      memory_type := memory_type
      created_at := now
      updated_at := now }
  (rel, { st with relations := st.relations ++ [rel], next_id := st.next_id + 1 })

/-- Row filter of `get_active_relation_by_signature`: exact active triple
within its validity window. -/
def relationSignatureFilter (scope scope_id subject_key predicate object_text : String)
    (target_time : Time) (r : MemoryRelation) : Prop :=
  r.scope = scope ∧ r.scope_id = scope_id ∧ r.subject_key = subject_key ∧
    r.predicate = predicate ∧ r.object_text = object_text ∧ r.status = "active" ∧
    (r.valid_at = none ∨ ∃ t, r.valid_at = some t ∧ t ≤ target_time) ∧
    (r.invalid_at = none ∨ ∃ t, r.invalid_at = some t ∧ target_time < t)

instance (scope scope_id subject_key predicate object_text : String) (target_time : Time) :
    DecidablePred
      (relationSignatureFilter scope scope_id subject_key predicate object_text target_time) :=
  fun r => by unfold relationSignatureFilter; infer_instance

/-- Order-by of `get_active_relation_by_signature`: `updated_at` descending. -/
def relationUpdatedAtDesc (a b : MemoryRelation) : Prop := b.updated_at ≤ a.updated_at

instance : DecidableRel relationUpdatedAtDesc := fun a b => by
  unfold relationUpdatedAtDesc; infer_instance

/-- `MemoryDB.get_active_relation_by_signature` (`LIMIT 1`, newest first). -/
def get_active_relation_by_signature (st : DBState)
    (scope scope_id subject_key predicate object_text : String) (now : Time) :
    Option MemoryRelation :=
  ((st.relations.filter (fun r =>
      relationSignatureFilter scope scope_id subject_key predicate object_text now r)).insertionSort
    relationUpdatedAtDesc).head?

/-- `MemoryDB.update_relation` restricted to the keyword arguments
`upsert_relation` passes (`confidence`, `evidence_count`, `memory_id`,
`memory_type`); `none` means "argument not given". -/
def update_relation (st : DBState) (relation_id : Nat) (confidence : Option ℚ)
    (evidence_count : Option Nat) (memory_id : Option Nat) (memory_type : Option String)
    (now : Time) : DBState :=
  if confidence = none ∧ evidence_count = none ∧ memory_id = none ∧ memory_type = none then st
  else
    { st with relations := st.relations.map (fun r =>
        if r.relation_id = relation_id then
          { r with
            confidence := confidence.getD r.confidence
            evidence_count := evidence_count.getD r.evidence_count
            memory_id := match memory_id with
              | some m => some m
              | none => r.memory_id
            memory_type := match memory_type with
              | some m => some m
              | none => r.memory_type
            updated_at := now }
        else r) }

/-- `MemoryDB.supersede_conflicting_relations`: flip active relations with the
same `(scope, scope_id, subject_key, predicate)`, a different row id and a
different `object_text` to `superseded`.  Returns the affected row count. -/
def supersede_conflicting_relations (st : DBState)
    (scope scope_id subject_key predicate : String) (keep_relation_id : Nat)
    (object_text : String) (at_time : Time) : Nat × DBState :=
  let hit := fun (r : MemoryRelation) =>
    r.scope = scope ∧ r.scope_id = scope_id ∧ r.subject_key = subject_key ∧
      r.predicate = predicate ∧ r.status = "active" ∧
      r.relation_id ≠ keep_relation_id ∧ r.object_text ≠ object_text
  ((st.relations.filter (fun r => hit r)).length,
    { st with relations := st.relations.map (fun r =>
        if hit r then
          { r with status := "superseded", invalid_at := some at_time,
                   superseded_by := some keep_relation_id, updated_at := at_time }
        else r) })

/-- `MemoryDB.upsert_relation`: create or refresh a relation and supersede
conflicting active variants.  Returns the kept relation's id (`none` when the
arguments are falsy and the call is a no-op). -/
def upsert_relation (st : DBState) (scope scope_id subject_key predicate object_text : String)
    (confidence : ℚ) (evidence_count : Nat) (memory_id : Option Nat)
    (memory_type : Option String) (now : Time) : Option Nat × DBState :=
  if scope = "" ∨ scope_id = "" ∨ subject_key = "" ∨ predicate = "" ∨ object_text = "" then
    (none, st)
  else
    let step :=
      match get_active_relation_by_signature st scope scope_id subject_key predicate
          object_text now with
      | some existing =>
        (existing.relation_id,
          update_relation st existing.relation_id
            (some (max existing.confidence confidence))
            (some (max existing.evidence_count evidence_count)) memory_id memory_type now)
      | none =>
        let (rel, st') := insert_relation st scope scope_id subject_key predicate object_text
          confidence evidence_count "active" (some now) none none memory_id memory_type now
        (rel.relation_id, st')
    let (kept_id, st1) := step
    (some kept_id,
      (supersede_conflicting_relations st1 scope scope_id subject_key predicate kept_id
        object_text now).2)

/-! ## Writer (`writer.py`) -/

/-- `_SOURCE_QUALITY` weights for confidence scoring. -/
def SOURCE_QUALITY : String → Option ℚ
  | "user_explicit" => some 1.0
  | "llm_extract" => some 0.8
  | "rule" => some 0.85
  | "tool_result" => some 0.7
  | _ => none

def RETRY_MAX_ATTEMPTS : Nat := 5
def RETRY_BASE_DELAY_SECONDS : Nat := 30
def RETRY_MAX_DELAY_SECONDS : Nat := 1800

/-- `_compute_priority_score`: `importance*0.4 + recency*0.3 + confidence*0.3`
(the source defaults `recency` to `1.0`; callers of the default are modelled
by passing `1` explicitly). -/
def compute_priority_score (importance confidence recency : ℚ) : ℚ :=
  importance * 0.4 + recency * 0.3 + confidence * 0.3

/-- `_normalize_subject_key`: lower-case, fall back to the fact key, strip
punctuation, collapse whitespace to underscores, cap at 128 chars. -/
def normalize_subject_key (subject_key : Option String) (fallback_fact_key : String) : String :=
  let raw := strLower (strStrip (optStr subject_key))
  let raw := if raw = "" then strLower (strStrip fallback_fact_key) else raw
  strTake (collapseWsUnderscore (keepWordAndSpace raw)) 128

/-- `_normalize_relation_predicate`. -/
def normalize_relation_predicate (raw_predicate : Option String) (fallback_type : String) :
    String :=
  let raw := strLower (strStrip (optStr raw_predicate))
  let raw := if raw = "" then strLower (strStrip fallback_type) ++ "_fact" else raw
  let raw := collapseWsUnderscore (keepWordAndSpace raw)
  let raw := String.mk ((raw.data.dropWhile (fun c => c = '_')).reverse.dropWhile
    (fun c => c = '_') |>.reverse)
  let raw := if raw = "" then "memory_fact" else raw
  strTake raw 64

/-- `_normalize_relation_object`. -/
def normalize_relation_object (raw_object : Option String) (fallback_fact : String) : String :=
  let text := strStrip (optStr raw_object)
  let text := if text = "" then strStrip fallback_fact else text
  strTake (squeezeSpaces text) 500

/-- A candidate fact returned by the extraction collaborator, as consumed by
`_process_candidate` via `candidate.get(...)`. -/
structure Candidate where
  type : Option String
  fact : Option String
  fact_key : Option String
  subject_key : Option String
  relation_predicate : Option String
  relation_object : Option String
  confidence : Option ℚ
  importance : Option ℚ
deriving DecidableEq, Repr

/-- `MemoryWriter` process-local state: the store plus rate-limit counters. -/
structure WriterState where
  db : DBState
  session_write_counts : String → Nat
  hourly_writes : List Time

/-- `_prune_hourly_writes`: keep timestamps within the 3600-second window. -/
def prune_hourly_writes (hourly : List Time) (now : Time) : List Time :=
  hourly.filter (fun t => now - 3600 < t)

/-- `_schedule_retry`: `mark_events_retry` with the writer's retry policy. -/
def schedule_retry (st : DBState) (event_ids : List Nat) (error : String) (now : Time) :
    DBState :=
  (mark_events_retry st event_ids error RETRY_MAX_ATTEMPTS RETRY_BASE_DELAY_SECONDS
    RETRY_MAX_DELAY_SECONDS now).2

/-- `_resolve_status_for_policy`. -/
def resolve_status_for_policy (mem_type : String) (wp : MemoryWritePolicy) : String :=
  if wp.mode = "shadow" then "shadow"
  else if wp.mode = "auto" then
    if mem_type ∈ wp.require_approval_types then "shadow" else "active"
  else "shadow"

/-- `_apply_temporal_supersede`: supersede older active items about the same
subject concept.  Returns the number of superseded rows. -/
def apply_temporal_supersede (st : DBState) (scope scope_id mem_type subject_key fact_key :
    String) (new_memory_id : Nat) (wp : MemoryWritePolicy) (supersede_at : Option Time)
    (now : Time) : Nat × DBState :=
  if wp.enable_temporal_supersede = false then (0, st)
  else if mem_type ∉ wp.temporal_conflict_types then (0, st)
  else if subject_key = "" then (0, st)
  else
    let conflicts := get_conflicting_items_by_subject st scope scope_id mem_type subject_key
      (some fact_key) 20 now
    let conflict_ids := (conflicts.filter (fun it => it.memory_id ≠ new_memory_id)).map
      (fun it => it.memory_id)
    if conflict_ids = [] then (0, st)
    else supersede_items st conflict_ids new_memory_id supersede_at now

/-- `_sync_relation_for_item`: upsert the graph-lite relation row derived from
an active memory item. -/
def sync_relation_for_item (st : DBState) (scope scope_id : String) (memory_id : Nat)
    (mem_type subject_key fact : String) (confidence : ℚ) (evidence_count : Nat)
    (candidate : Candidate) (now : Time) : DBState :=
  if mem_type ≠ "profile" ∧ mem_type ≠ "preference" ∧ mem_type ≠ "task_state" ∧
      mem_type ≠ "constraint" then st
  else
    let predicate := normalize_relation_predicate candidate.relation_predicate mem_type
    let object_text := normalize_relation_object candidate.relation_object fact
    if subject_key = "" ∨ predicate = "" ∨ object_text = "" then st
    else
      (upsert_relation st scope scope_id subject_key predicate object_text
        (max 0 (min 1 confidence)) (max 1 evidence_count) (some memory_id) (some mem_type)
        now).2

/-- Merge scoring: `min(1, base * source_weight * repetition_bonus)` with
`repetition_bonus = min(1.5, 1 + 0.1 * (total_count - 1))`. -/
def merge_scored_confidence (base_confidence : ℚ) (total_count : Nat) : ℚ :=
  min 1 (base_confidence * ((SOURCE_QUALITY "llm_extract").getD 0.8) *
    min 1.5 (1 + 0.1 * ((total_count : Nat) - 1 : ℚ)))

/-- `existing.subject_key or subject_key` (Python falsy-or). -/
def merge_new_subject_key (existing : MemoryItem) (subject_key : String) : String :=
  match existing.subject_key with
  | some s => if s = "" then subject_key else s
  | none => subject_key

/-- Shadow promotion once the evidence gate is met. -/
def merge_new_status (existing : MemoryItem) (mem_type : String) (wp : MemoryWritePolicy)
    (new_evidence_count : Nat) : String :=
  if existing.status = "shadow" ∧ max 1 wp.min_evidence_count ≤ new_evidence_count then
    resolve_status_for_policy mem_type wp
  else existing.status

/-- The merge branch of `_process_candidate` (an existing item with the same
`(scope, scope_id, fact_key)` was found). -/
def merge_existing (ws : WriterState) (scope scope_id : String) (candidate : Candidate)
    (mem_type fact : String) (subject_key : String) (base_confidence importance : ℚ)
    (event_ids : List Nat) (wp : MemoryWritePolicy) (now : Time) (existing : MemoryItem) :
    Bool × WriterState :=
  let evidence_event_ids := dedupFirst (event_ids.take 3)
  let linked := get_existing_evidence_event_ids ws.db existing.memory_id evidence_event_ids
  let new_event_ids := evidence_event_ids.filter (fun eid => eid ∉ linked)
  let added_evidence := new_event_ids.length
  let new_evidence_count :=
    if 0 < added_evidence then existing.evidence_count + added_evidence
    else existing.evidence_count
  let scored_confidence :=
    merge_scored_confidence base_confidence (existing.evidence_count + added_evidence)
  let new_confidence :=
    if 0 < added_evidence then
      (existing.confidence * existing.evidence_count + scored_confidence * added_evidence) /
        ((existing.evidence_count + added_evidence : Nat) : ℚ)
    else existing.confidence
  let new_fact :=
    if 0 < added_evidence ∧ existing.confidence < scored_confidence then fact
    else existing.fact
  let new_subject_key := merge_new_subject_key existing subject_key
  let new_importance := max existing.importance importance
  let new_status := merge_new_status existing mem_type wp new_evidence_count
  let changed := new_fact ≠ existing.fact ∨ some new_subject_key ≠ existing.subject_key ∨
    new_confidence ≠ existing.confidence ∨ new_importance ≠ existing.importance ∨
    new_evidence_count ≠ existing.evidence_count ∨ new_status ≠ existing.status
  let db1 :=
    if changed then
      update_item ws.db existing.memory_id (some new_fact) (some new_subject_key)
        (some (min 1 new_confidence)) (some new_importance) (some new_evidence_count)
        (some new_status) now
    else ws.db
  let db2 := new_event_ids.foldl (fun db eid =>
    insert_evidence db existing.memory_id eid "llm_extract") db1
  let db3 :=
    if new_status = "active" then
      let st' := (apply_temporal_supersede db2 scope scope_id mem_type new_subject_key
        existing.fact_key existing.memory_id wp (some now) now).2
      sync_relation_for_item st' scope scope_id existing.memory_id mem_type new_subject_key
        new_fact (min 1 new_confidence) new_evidence_count candidate now
    else db2
  (changed ∨ new_event_ids ≠ [], { ws with db := db3 })

/-- The new-item branch of `_process_candidate` (no existing item with the
candidate's fact key): rate limits, capacity/eviction, confidence gate,
insert, evidence links, supersession and relation sync. -/
def process_new_item (ws : WriterState) (scope scope_id : String) (candidate : Candidate)
    (mem_type fact fact_key subject_key : String) (base_confidence importance : ℚ)
    (event_ids : List Nat) (wp : MemoryWritePolicy) (retention : String → Option Int)
    (now : Time) : Bool × WriterState :=
  let evidence_event_ids := dedupFirst (event_ids.take 3)
  let source_weight := (SOURCE_QUALITY "llm_extract").getD 0.8
  let ws := { ws with hourly_writes := prune_hourly_writes ws.hourly_writes now }
  if wp.max_writes_per_hour ≤ ws.hourly_writes.length then (false, ws)
  else
    let session_key := scope ++ ":" ++ scope_id
    if wp.max_writes_per_session ≤ ws.session_write_counts session_key then (false, ws)
    else
      let current_count := count_items_for_scope ws.db scope scope_id
      let after_capacity : Option WriterState :=
        if wp.max_items_per_scope ≤ current_count then
          if wp.eviction_enabled = false then none
          else
            let new_score := compute_priority_score importance base_confidence 1
            match get_eviction_candidates ws.db scope scope_id 1 with
            | [] => none
            | victim :: _ =>
              let victim_score := compute_priority_score victim.importance victim.confidence 1
              if new_score ≤ victim_score then none
              else
                let evicted := update_item ws.db victim.memory_id none none none none none
                  (some "expired") now
                some { ws with db := evicted }
        else some ws
      match after_capacity with
      | none => (false, ws)
      | some ws2 =>
        let scored_confidence := min 1 (base_confidence * source_weight)
        if scored_confidence < wp.min_confidence then (false, ws2)
        else
          let status0 := resolve_status_for_policy mem_type wp
          let status := if 1 < max 1 wp.min_evidence_count then "shadow" else status0
          let ttl : Option Int :=
            match retention mem_type with
            | some d => if d < 0 then none else some d
            | none => none
          let (item, db1) := insert_item ws2.db scope scope_id mem_type fact fact_key
            (some subject_key) scored_confidence importance 1 ttl status (some now) none
            none now
          let db2 := evidence_event_ids.foldl (fun db eid =>
            insert_evidence db item.memory_id eid "llm_extract") db1
          let ws3 : WriterState :=
            { db := db2
              session_write_counts := fun k =>
                if k = session_key then ws2.session_write_counts k + 1
                else ws2.session_write_counts k
              hourly_writes := ws2.hourly_writes ++ [now] }
          let db3 :=
            if item.status = "active" then
              let st' := (apply_temporal_supersede ws3.db scope scope_id mem_type subject_key
                fact_key item.memory_id wp (some now) now).2
              sync_relation_for_item st' scope scope_id item.memory_id mem_type subject_key
                fact scored_confidence 1 candidate now
            else ws3.db
          (true, { ws3 with db := db3 })

/-- `_process_candidate`: validate the candidate, then dispatch to the merge
branch (existing fact key) or the new-item branch. -/
def process_candidate (ws : WriterState) (scope scope_id : String) (candidate : Candidate)
    (event_ids : List Nat) (wp : MemoryWritePolicy) (retention : String → Option Int)
    (now : Time) : Bool × WriterState :=
  let subject_key := normalize_subject_key candidate.subject_key (optStr candidate.fact_key)
  let base_confidence := candidate.confidence.getD 0.5
  let importance := candidate.importance.getD 0.5
  if optStrFalsy candidate.type || optStrFalsy candidate.fact ||
      optStrFalsy candidate.fact_key then (false, ws)
  else
    let mem_type := optStr candidate.type
    let fact := optStr candidate.fact
    let fact_key := optStr candidate.fact_key
    if mem_type ∉ wp.allowed_types then (false, ws)
    else
      match get_item_by_fact_key ws.db scope scope_id fact_key with
      | some existing =>
        merge_existing ws scope scope_id candidate mem_type fact subject_key base_confidence
          importance event_ids wp now existing
      | none =>
        process_new_item ws scope scope_id candidate mem_type fact fact_key subject_key
          base_confidence importance event_ids wp retention now

/-- `_build_event_message_text`, abstracted: the event's `content` field
already holds the text the source would extract from the content dict. -/
def build_event_message_text (e : MemoryEvent) : String := strStrip e.content

/-- One step of the candidate loop in `process_pending_events`: a candidate
processor that may fail (modelling an exception raised inside
`_process_candidate`) always yields a successor state plus either the
written flag or an error message. -/
def run_candidates (pc : WriterState → Candidate → WriterState × Except String Bool) :
    WriterState → List Candidate → WriterState × Bool × Option String × Nat
  | ws, [] => (ws, false, none, 0)
  | ws, c :: rest =>
    let (ws', r) := pc ws c
    match r with
    | Except.ok written =>
      let (wsf, hadErr, firstErr, writes) := run_candidates pc ws' rest
      (wsf, hadErr, firstErr, (if written then 1 else 0) + writes)
    | Except.error e =>
      let (wsf, _, _, writes) := run_candidates pc ws' rest
      (wsf, true, some e, writes)

/-- The per-group body of `MemoryWriter.process_pending_events`.  The outcome
of the one extraction call for the group is a parameter (`Except.error`
models the call raising), and `pc` is the candidate processor (an
`Except.error` result models `_process_candidate` raising).  Returns the
number of written candidates with the new writer state. -/
def process_group (pc : WriterState → Candidate → WriterState × Except String Bool)
    (extraction : Except String (List Candidate)) (ws : WriterState)
    (scope_events : List MemoryEvent) (now : Time) : Nat × WriterState :=
  let scope_event_ids := scope_events.map (fun e => e.event_id)
  let messages := (scope_events.map build_event_message_text).filter (fun t => t ≠ "")
  if messages = [] then
    (0, { ws with db := mark_events_processed ws.db scope_event_ids })
  else
    match extraction with
    | Except.error e =>
      (0, { ws with db := schedule_retry ws.db scope_event_ids ("extract: " ++ e) now })
    | Except.ok candidates =>
      let (ws', hadErr, firstErr, writes) := run_candidates pc ws candidates
      if hadErr then
        let retried := schedule_retry ws'.db scope_event_ids
          ("pipeline: " ++ firstErr.getD "pipeline error") now
        (writes, { ws' with db := retried })
      else
        (writes, { ws' with db := mark_events_processed ws'.db scope_event_ids })

/-- Group events by `(scope, scope_id)` preserving first-occurrence order of
the groups, modelling the `defaultdict(list)` grouping in
`process_pending_events`. -/
def groupKeys (events : List MemoryEvent) : List (String × String) :=
  events.foldl (fun acc e =>
    if (e.scope, e.scope_id) ∈ acc then acc else acc ++ [(e.scope, e.scope_id)]) []

/-- `MemoryWriter.process_pending_events`, with the extraction collaborator
abstracted to a function of the group.  Fetches due events, groups them by
scope, and runs `process_group` on each group in order. -/
def process_pending_events (pc : WriterState → Candidate → WriterState × Except String Bool)
    (extract : String → String → List MemoryEvent → Except String (List Candidate))
    (ws : WriterState) (wp : MemoryWritePolicy) (batch_size : Nat) (now : Time) :
    Nat × WriterState :=
  if wp.enable = false then (0, ws)
  else
    let events := get_unprocessed_events ws.db batch_size now
    (groupKeys events).foldl (fun acc key =>
      let scope_events := events.filter (fun e => e.scope = key.1 ∧ e.scope_id = key.2)
      let (writes, ws') := process_group pc (extract key.1 key.2 scope_events) acc.2
        scope_events now
      (acc.1 + writes, ws')) (0, ws)

/-! ## Reader (`reader.py`): token budget enforcement -/

/-- `_time_decay`: recency score `1/(1 + days_since/half_life)`. -/
def time_decay (updated_at : Time) (now : Time) (half_life_days : ℚ) : ℚ :=
  let days_since : ℚ := ((now - updated_at : Nat) : ℚ) / 86400
  1 / (1 + days_since / half_life_days)

/-- `_estimate_tokens`: `max(1, len(text) // 4)`. -/
def estimate_tokens (text : String) : Nat := max 1 (text.data.length / 4)

/-- Digit character for `format_confidence`. -/
def digitChar (n : Nat) : Char :=
  Char.ofNat (48 + n % 10)

/-- Two-decimal rendering `f"{q:.2f}"` of a confidence in `[0, 1]`
(four characters, e.g. `0.85`; rounding ties are not modelled exactly). -/
def format_confidence (q : ℚ) : String :=
  let n : Nat := (⌊q * 100 + 1 / 2⌋ : Int).toNat
  String.mk [digitChar (n / 100), '.', digitChar (n / 10 % 10), digitChar (n % 10)]

/-- `_format_single_item`: `- [{type}] {fact} (confidence: {x.xx})`. -/
def format_single_item (item : MemoryItem) : String :=
  "- [" ++ item.type ++ "] " ++ item.fact ++ " (confidence: " ++
    format_confidence item.confidence ++ ")"

/-- `_format_relation_line`. -/
def format_relation_line (r : MemoryRelation) : String :=
  "- [relation] " ++ r.subject_key ++ " --" ++ r.predicate ++ "--> " ++ r.object_text ++
    " (confidence: " ++ format_confidence r.confidence ++ ")"

/-- The header/footer overhead reserved by `_apply_budget` and
`_select_relation_lines_with_budget`. -/
def overhead_tokens : Nat := estimate_tokens "[Long-term Memory]\n[End Memory]\n"

/-- Loop of `MemoryReader._apply_budget`: greedily accept ranked items while
the running token estimate plus the overhead stays within `max_tokens`,
stopping at `max_items`. -/
def apply_budget_go (policy : MemoryReadPolicy) (selected : List MemoryItem)
    (total_tokens : Nat) : List (MemoryItem × ℚ) → List MemoryItem
  | [] => selected
  | (item, _) :: rest =>
    if policy.max_items ≤ selected.length then selected
    else
      let line_tokens := estimate_tokens (format_single_item item)
      if policy.max_tokens < total_tokens + line_tokens + overhead_tokens then
        apply_budget_go policy selected total_tokens rest
      else
        apply_budget_go policy (selected ++ [item]) (total_tokens + line_tokens) rest

/-- `MemoryReader._apply_budget`. -/
def apply_budget (items : List (MemoryItem × ℚ)) (policy : MemoryReadPolicy) :
    List MemoryItem :=
  apply_budget_go policy [] 0 items

/-- Loop of `MemoryReader._select_relation_lines_with_budget`. -/
def select_relation_lines_go (policy : MemoryReadPolicy) (max_lines : Nat)
    (lines : List String) (used_tokens : Nat) : List (MemoryRelation × ℚ) → List String
  | [] => lines
  | (relation, _) :: rest =>
    if max_lines ≤ lines.length then lines
    else
      let line := format_relation_line relation
      let line_tokens := estimate_tokens line
      if policy.max_tokens < used_tokens + line_tokens then
        select_relation_lines_go policy max_lines lines used_tokens rest
      else
        select_relation_lines_go policy max_lines (lines ++ [line])
          (used_tokens + line_tokens) rest

/-- `MemoryReader._select_relation_lines_with_budget`: relation lines that fit
in the token budget left over after the already-selected item lines. -/
def select_relation_lines_with_budget (relations : List (MemoryRelation × ℚ))
    (selected_items : List MemoryItem) (policy : MemoryReadPolicy) (max_lines : Nat) :
    List String :=
  if max_lines = 0 ∨ relations = [] then []
  else
    let used_tokens := overhead_tokens +
      (selected_items.map (fun it => estimate_tokens (format_single_item it))).sum
    select_relation_lines_go policy max_lines [] used_tokens relations

/-- Two relation rows address the same graph-lite slot. -/
def sameRelKey (r1 r2 : MemoryRelation) : Prop :=
  r1.scope = r2.scope ∧ r1.scope_id = r2.scope_id ∧
    r1.subject_key = r2.subject_key ∧ r1.predicate = r2.predicate

instance (r1 r2 : MemoryRelation) : Decidable (sameRelKey r1 r2) := by
  unfold sameRelKey; infer_instance

/-- §3 invariant: at most one `active` relation per
`(scope, scope_id, subject_key, predicate)`. -/
def AtMostOneActiveRelation (rels : List MemoryRelation) : Prop :=
  List.Pairwise (fun r1 r2 =>
    r1.status = "active" → r2.status = "active" → sameRelKey r1 r2 → False) rels

/-! ## Concrete inputs used by witnesses and counterexamples -/

/-- An `auto`-mode write policy with the source defaults. -/
def wpAuto : MemoryWritePolicy :=
  { enable := true, mode := "auto", min_confidence := 0.6, min_evidence_count := 1,
    allowed_types := ["profile", "preference", "task_state", "constraint", "episode"],
    max_writes_per_session := 10, max_writes_per_hour := 50, max_items_per_scope := 200,
    require_approval_types := [], eviction_enabled := true, eviction_buffer := 0.9,
    enable_temporal_supersede := true,
    temporal_conflict_types := ["profile", "preference", "task_state", "constraint"] }

/-- A stored active item used by the C1/C2 witnesses. -/
def wit1_item : MemoryItem :=
  { memory_id := 0, scope := "user", scope_id := "u1", type := "profile",
    fact := "old fact", fact_key := "k1", subject_key := some "s1", confidence := 0.7,
    importance := 0.5, evidence_count := 1, ttl_days := none, status := "active",
    valid_at := some 1000, invalid_at := none, superseded_by := none,
    consolidation_count := 0, created_at := 1000, updated_at := 1000 }

/-- Writer state holding `wit1_item` with its evidence link to event 100. -/
def wit1_ws : WriterState :=
  { db := { events := [], items := [wit1_item],
            evidence := [{ memory_id := 0, event_id := 100,
                           extraction_method := "llm_extract" }],
            relations := [], next_id := 1 }
    session_write_counts := fun _ => 0
    hourly_writes := [] }

/-- A candidate re-submitting `wit1_item`'s fact key from event 100. -/
def wit1_cand : Candidate :=
  { type := some "profile", fact := some "new fact", fact_key := some "k1",
    subject_key := some "s1", relation_predicate := none, relation_object := none,
    confidence := some 0.9, importance := some 0.5 }

/-- Resident item used by the eviction witnesses/counterexample: importance
and confidence `0.5`, last updated 30 days before the candidate arrives. -/
def ev_victim : MemoryItem :=
  { memory_id := 0, scope := "user", scope_id := "u1", type := "profile",
    fact := "old resident fact", fact_key := "k_old", subject_key := some "s_old",
    confidence := 0.5, importance := 0.5, evidence_count := 1, ttl_days := none,
    status := "active", valid_at := some 1000, invalid_at := none, superseded_by := none,
    consolidation_count := 0, created_at := 1000, updated_at := 1000 }

/-- Store holding only `ev_victim`. -/
def ev_ws : WriterState :=
  { db := { events := [], items := [ev_victim], evidence := [], relations := [],
            next_id := 1 }
    session_write_counts := fun _ => 0
    hourly_writes := [] }

/-- Write policy with `max_items_per_scope = 1` and eviction enabled. -/
def ev_wp : MemoryWritePolicy :=
  { wpAuto with max_items_per_scope := 1 }

/-- 30 days (in seconds) after `ev_victim.updated_at`. -/
def ev_now : Time := 1000 + 2592000

/-- Candidate with the same importance/confidence as the resident (C9
counterexample: equal scores, so the code rejects it). -/
def ev_cand_tie : Candidate :=
  { type := some "profile", fact := some "new fact", fact_key := some "k_new",
    subject_key := some "s_new", relation_predicate := none, relation_object := none,
    confidence := some 0.5, importance := some 0.5 }

/-- Strictly dominant candidate that also passes the confidence gate. -/
def ev_cand_win : Candidate :=
  { type := some "profile", fact := some "winning fact", fact_key := some "k_new",
    subject_key := some "s_new", relation_predicate := none, relation_object := none,
    confidence := some 0.9, importance := some 0.9 }

/-- Strictly dominant candidate whose scored confidence fails the gate
(`min(1, 0.55*0.8) = 0.44 < 0.6`). -/
def ev_cand_weak : Candidate :=
  { type := some "profile", fact := some "weak fact", fact_key := some "k_new",
    subject_key := some "s_new", relation_predicate := none, relation_object := none,
    confidence := some 0.55, importance := some 1 }

/-- Candidate A of the temporal-supersession scenario (Beijing). -/
def scenA : Candidate :=
  { type := some "profile", fact := some "lives in Beijing",
    fact_key := some "city_beijing", subject_key := some "current_city",
    relation_predicate := some "lives_in", relation_object := some "Beijing",
    confidence := some 0.9, importance := some 0.7 }

/-- Candidate B of the temporal-supersession scenario (Shanghai, same
subject key, different fact key). -/
def scenB : Candidate :=
  { type := some "profile", fact := some "lives in Shanghai",
    fact_key := some "city_shanghai", subject_key := some "current_city",
    relation_predicate := some "lives_in", relation_object := some "Shanghai",
    confidence := some 0.9, importance := some 0.7 }

/-- Empty writer state for the scenario. -/
def scen_ws0 : WriterState :=
  { db := { events := [], items := [], evidence := [], relations := [], next_id := 0 }
    session_write_counts := fun _ => 0
    hourly_writes := [] }

/-- One of 21 active items sharing `(scope, scope_id, type, subject_key)` with
pairwise different fact keys. -/
def c3cex_item (i : Nat) : MemoryItem :=
  { memory_id := i, scope := "user", scope_id := "u1", type := "profile",
    fact := "conflicting fact", fact_key := String.mk ('k' :: List.replicate i 'x'),
    subject_key := some "s", confidence := 1, importance := 1, evidence_count := 1,
    ttl_days := none, status := "active", valid_at := some (1000 + i),
    invalid_at := none, superseded_by := none, consolidation_count := 0,
    created_at := 1000 + i, updated_at := 1000 + i }

/-- Store holding the 21 conflicting active items. -/
def c3cex_st : DBState :=
  { events := [], items := (List.range 21).map c3cex_item, evidence := [],
    relations := [], next_id := 100 }


/-- A single active relation row used by the C8 witness. -/
def c8w_rel : MemoryRelation :=
  { relation_id := 0, scope := "user", scope_id := "u1", subject_key := "alice",
    predicate := "likes", object_text := "tea", confidence := 1/2, evidence_count := 1,
    status := "active", valid_at := none, invalid_at := none, superseded_by := none,
    memory_id := none, memory_type := none, created_at := 0, updated_at := 0 }

/-- A store holding exactly `c8w_rel`, used by the C8 witness. -/
def c8w_st : DBState :=
  { events := [], items := [], evidence := [], relations := [c8w_rel], next_id := 1 }


/-- Concrete unprocessed event used by the C5 and C6 witnesses. -/
def c5w_ev : MemoryEvent :=
  { event_id := 7, scope := "user", scope_id := "u1", source_type := "message",
    source_role := "user", content := "I like tea", platform_id := none,
    session_id := none, processed := false, attempt_count := 0, next_retry_at := none,
    last_error := none, dead_letter := false, created_at := 0 }

/-- A store holding exactly `c5w_ev`, used by the C5 and C6 witnesses. -/
def c5w_st : DBState :=
  { events := [c5w_ev], items := [], evidence := [], relations := [], next_id := 1 }

/-- Writer state over `c5w_st`, used by the C6 witness. -/
def c6w_ws : WriterState :=
  { db := c5w_st, session_write_counts := fun _ => 0, hourly_writes := [] }

/-- A candidate processor that never raises and never writes, used by the C6
witness. -/
def c6w_pc : WriterState → Candidate → WriterState × Except String Bool :=
  fun ws _ => (ws, Except.ok false)

/-- Concrete read policy used by the C7 witness. -/
def c7w_policy : MemoryReadPolicy :=
  { enable := true, max_items := 5, max_tokens := 1000, max_per_type := 3,
    min_confidence := 0.5, recency_weight := 0.3, importance_weight := 0.4,
    similarity_weight := 0.3, strategy := "score", include_relations := true,
    max_relation_lines := 5, relation_use_vector := false,
    vector_quantization := "none", relation_only_mode := false }

/-- Concrete item used by the C7 witness. -/
def c7w_item : MemoryItem :=
  { memory_id := 0, scope := "user", scope_id := "u1", type := "preference",
    fact := "likes tea", fact_key := "k", subject_key := none, confidence := 0.9,
    importance := 0.5, evidence_count := 1, ttl_days := none, status := "active",
    valid_at := none, invalid_at := none, superseded_by := none,
    consolidation_count := 0, created_at := 0, updated_at := 0 }

/-! ## Claim C5: retry and dead-letter bookkeeping -/

/-- C5: for every event of a failed group (unprocessed, not dead-lettered),
`mark_events_retry` with the writer's retry policy (`max_attempts = 5`,
`base_delay = 30`, `max_delay = 1800`) increments `attempt_count`; if the
incremented count reaches 5 the event is dead-lettered with `next_retry_at`
cleared, otherwise `next_retry_at = now + min(1800, 30 * 2^(attempt_count-1))`
and the truncated `last_error` is recorded; and every
`get_unprocessed_events` fetch excludes dead-lettered events and events whose
`next_retry_at` lies in the future. -/
theorem retryUpdate_fields (ma bd md : Nat) (err : String) (now : Time) (e : MemoryEvent) :
    (retryUpdate ma bd md err now e).event_id = e.event_id ∧
    (retryUpdate ma bd md err now e).attempt_count = e.attempt_count + 1 ∧
    (retryUpdate ma bd md err now e).processed = e.processed ∧
    (retryUpdate ma bd md err now e).last_error = some err ∧
    (ma ≤ e.attempt_count + 1 →
      (retryUpdate ma bd md err now e).dead_letter = true ∧
        (retryUpdate ma bd md err now e).next_retry_at = none) ∧
    (e.attempt_count + 1 < ma →
      (retryUpdate ma bd md err now e).next_retry_at =
        some (now + min md (bd * 2 ^ e.attempt_count))) := by
  unfold retryUpdate
  by_cases h : ma ≤ e.attempt_count + 1
  · rw [if_pos h]
    exact ⟨rfl, rfl, rfl, rfl, fun _ => ⟨rfl, rfl⟩, fun h' => absurd h (Nat.not_le.mpr h')⟩
  · rw [if_neg h]
    exact ⟨rfl, rfl, rfl, rfl, fun h' => absurd h' h, fun _ => rfl⟩

theorem c5_retry_and_dead_letter (st : DBState) (event_ids : List Nat) (error : String)
    (now : Time) (ev : MemoryEvent) (hmem : ev ∈ st.events) (hid : ev.event_id ∈ event_ids)
    (hp : ev.processed = false) (hd : ev.dead_letter = false) :
    let upd := retryUpdate RETRY_MAX_ATTEMPTS RETRY_BASE_DELAY_SECONDS
      RETRY_MAX_DELAY_SECONDS (strTake error 500) now ev
    upd ∈ ((mark_events_retry st event_ids error RETRY_MAX_ATTEMPTS
        RETRY_BASE_DELAY_SECONDS RETRY_MAX_DELAY_SECONDS now).2).events ∧
    upd.attempt_count = ev.attempt_count + 1 ∧
    upd.processed = false ∧
    upd.last_error = some (strTake error 500) ∧
    (RETRY_MAX_ATTEMPTS ≤ ev.attempt_count + 1 →
      upd.dead_letter = true ∧ upd.next_retry_at = none) ∧
    (ev.attempt_count + 1 < RETRY_MAX_ATTEMPTS →
      upd.next_retry_at = some (now + min RETRY_MAX_DELAY_SECONDS
        (RETRY_BASE_DELAY_SECONDS * 2 ^ ev.attempt_count))) ∧
    (∀ (st' : DBState) (limit : Nat) (now' : Time) (e : MemoryEvent),
      e ∈ get_unprocessed_events st' limit now' →
        e.dead_letter = false ∧ ∀ t, e.next_retry_at = some t → t ≤ now') := by
  intro upd
  have hsel : (ev.event_id ∈ event_ids ∧ ev.processed = false ∧ ev.dead_letter = false) :=
    ⟨hid, hp, hd⟩
  obtain ⟨hu0, hu1, hu2, hu3, hu4, hu5⟩ := retryUpdate_fields RETRY_MAX_ATTEMPTS
    RETRY_BASE_DELAY_SECONDS RETRY_MAX_DELAY_SECONDS (strTake error 500) now ev
  refine ⟨?_, hu1, by rw [hu2, hp], hu3, hu4, fun h => (hu5 h).symm ▸ rfl, ?_⟩
  · unfold mark_events_retry
    refine List.mem_map.mpr ⟨ev, hmem, ?_⟩
    rw [if_pos hsel]
  · intro st' limit now' e he
    unfold get_unprocessed_events at he
    have he1 : e ∈ (st'.events.filter (fun e =>
        e.processed = false ∧ e.dead_letter = false ∧
          (e.next_retry_at = none ∨ ∃ t, e.next_retry_at = some t ∧ t ≤ now'))).insertionSort
        unprocessedOrder := List.take_subset _ _ he
    have he2 := (List.mem_insertionSort unprocessedOrder).mp he1
    have he3 := (List.mem_filter.mp he2).2
    simp only [decide_eq_true_eq] at he3
    refine ⟨he3.2.1, ?_⟩
    intro t ht
    rcases he3.2.2 with h | ⟨t', ht', hle⟩
    · rw [ht] at h; exact absurd h (by simp)
    · rw [ht] at ht'
      injection ht' with h'
      rw [h']
      exact hle

/-! ## Claim C7: token-budget enforcement -/

/-- Invariant of the `_apply_budget` loop: the accumulator is the token sum of
the selected lines, the budget (with overhead) holds once anything was
selected, and the `max_items` cap holds. -/
theorem apply_budget_go_spec (policy : MemoryReadPolicy) :
    ∀ (items : List (MemoryItem × ℚ)) (selected : List MemoryItem) (total : Nat),
      total = (selected.map (fun it => estimate_tokens (format_single_item it))).sum →
      (selected ≠ [] → total + overhead_tokens ≤ policy.max_tokens) →
      selected.length ≤ policy.max_items →
      (apply_budget_go policy selected total items).length ≤ policy.max_items ∧
        (apply_budget_go policy selected total items ≠ [] →
          overhead_tokens + ((apply_budget_go policy selected total items).map
            (fun it => estimate_tokens (format_single_item it))).sum ≤ policy.max_tokens) := by
  intro items
  induction items with
  | nil =>
    intro selected total hsum hbud hlen
    unfold apply_budget_go
    exact ⟨hlen, fun hne => by rw [← hsum, Nat.add_comm]; exact hbud hne⟩
  | cons hd tl ih =>
    intro selected total hsum hbud hlen
    obtain ⟨item, score⟩ := hd
    unfold apply_budget_go
    by_cases hbreak : policy.max_items ≤ selected.length
    · rw [if_pos hbreak]
      exact ⟨hlen, fun hne => by rw [← hsum, Nat.add_comm]; exact hbud hne⟩
    · rw [if_neg hbreak]
      by_cases hskip : policy.max_tokens <
          total + estimate_tokens (format_single_item item) + overhead_tokens
      · rw [if_pos hskip]
        exact ih selected total hsum hbud hlen
      · rw [if_neg hskip]
        refine ih (selected ++ [item]) (total + estimate_tokens (format_single_item item))
          ?_ ?_ ?_
        · simp [hsum]
        · intro _
          exact Nat.le_of_not_lt hskip
        · have : selected.length < policy.max_items := Nat.lt_of_not_le hbreak
          simpa using this



/-- Invariant of the `_select_relation_lines_with_budget` loop. -/
theorem select_relation_lines_go_spec (policy : MemoryReadPolicy) (max_lines : Nat)
    (base : Nat) :
    ∀ (relations : List (MemoryRelation × ℚ)) (lines : List String) (used : Nat),
      used = base + (lines.map estimate_tokens).sum →
      (lines ≠ [] → used ≤ policy.max_tokens) →
      lines.length ≤ max_lines →
      (select_relation_lines_go policy max_lines lines used relations).length ≤ max_lines ∧
        (select_relation_lines_go policy max_lines lines used relations ≠ [] →
          base + ((select_relation_lines_go policy max_lines lines used
            relations).map estimate_tokens).sum ≤ policy.max_tokens) := by
  intro relations
  induction relations with
  | nil =>
    intro lines used hsum hbud hlen
    unfold select_relation_lines_go
    exact ⟨hlen, fun hne => by rw [← hsum]; exact hbud hne⟩
  | cons hd tl ih =>
    intro lines used hsum hbud hlen
    obtain ⟨relation, score⟩ := hd
    unfold select_relation_lines_go
    by_cases hbreak : max_lines ≤ lines.length
    · rw [if_pos hbreak]
      exact ⟨hlen, fun hne => by rw [← hsum]; exact hbud hne⟩
    · rw [if_neg hbreak]
      by_cases hskip : policy.max_tokens <
          used + estimate_tokens (format_relation_line relation)
      · rw [if_pos hskip]
        exact ih lines used hsum hbud hlen
      · rw [if_neg hskip]
        refine ih (lines ++ [format_relation_line relation])
          (used + estimate_tokens (format_relation_line relation)) ?_ ?_ ?_
        · simp [hsum, Nat.add_assoc]
        · intro _
          exact Nat.le_of_not_lt hskip
        · have : lines.length < max_lines := Nat.lt_of_not_le hbreak
          simpa using this

/-- C7: for every ranked item list and read policy, the budget step selects at
most `max_items` items and keeps the estimated token total (per-line
estimates plus the header/footer overhead, as accounted by the source)
within `max_tokens`; the relation lines selected afterwards never push the
estimated total over `max_tokens` either, and respect their own line cap. -/
theorem c7_budget_enforcement (items : List (MemoryItem × ℚ))
    (relations : List (MemoryRelation × ℚ)) (policy : MemoryReadPolicy) (max_lines : Nat) :
    (apply_budget items policy).length ≤ policy.max_items ∧
    (select_relation_lines_with_budget relations (apply_budget items policy) policy
      max_lines).length ≤ max_lines ∧
    ((apply_budget items policy ≠ [] ∨
        select_relation_lines_with_budget relations (apply_budget items policy) policy
          max_lines ≠ []) →
      overhead_tokens +
        ((apply_budget items policy).map
          (fun it => estimate_tokens (format_single_item it))).sum +
        ((select_relation_lines_with_budget relations (apply_budget items policy) policy
          max_lines).map estimate_tokens).sum ≤ policy.max_tokens) := by
  obtain ⟨hlen, hbud⟩ := apply_budget_go_spec policy items [] 0 (by simp) (by simp)
    (by simp)
  have hsel : apply_budget items policy = apply_budget_go policy [] 0 items := rfl
  rw [← hsel] at hlen hbud
  by_cases hempty : max_lines = 0 ∨ relations = []
  · have hnil : select_relation_lines_with_budget relations (apply_budget items policy)
        policy max_lines = [] := by
      unfold select_relation_lines_with_budget
      rw [if_pos hempty]
    rw [hnil]
    refine ⟨hlen, by simp, ?_⟩
    rintro (hne | hne)
    · simpa using hbud hne
    · exact absurd rfl hne
  · set base := overhead_tokens + ((apply_budget items policy).map
      (fun it => estimate_tokens (format_single_item it))).sum with hbase
    have hgo : select_relation_lines_with_budget relations (apply_budget items policy)
        policy max_lines = select_relation_lines_go policy max_lines [] base relations := by
      unfold select_relation_lines_with_budget
      rw [if_neg hempty]
    obtain ⟨hl1, hl3⟩ := select_relation_lines_go_spec policy max_lines base relations []
      base (by simp) (by simp) (by simp)
    rw [← hgo] at hl1 hl3
    refine ⟨hlen, hl1, ?_⟩
    rintro (hne | hne)
    · by_cases hrel : select_relation_lines_with_budget relations (apply_budget items policy)
          policy max_lines = []
      · rw [hrel]
        simpa using hbud hne
      · exact hl3 hrel
    · exact hl3 hne

/-! ## Claim C6: per-group all-or-nothing event marking -/

/-- The candidate loop never touches the events table, provided each single
candidate step does not (which is true of `_process_candidate`). -/
theorem run_candidates_preserves_events
    (pc : WriterState → Candidate → WriterState × Except String Bool)
    (hpc : ∀ ws c, ((pc ws c).1).db.events = ws.db.events) :
    ∀ (candidates : List Candidate) (ws : WriterState),
      ((run_candidates pc ws candidates).1).db.events = ws.db.events := by
  intro candidates
  induction candidates with
  | nil => intro ws; rfl
  | cons c rest ih =>
    intro ws
    have h1 : ((pc ws c).1).db.events = ws.db.events := hpc ws c
    unfold run_candidates
    rcases hp : pc ws c with ⟨ws', r⟩
    rw [hp] at h1
    cases r with
    | ok written =>
      have h2 := ih ws'
      rcases hrec : run_candidates pc ws' rest with ⟨wsf, rest3⟩
      rw [hrec] at h2
      simp only [hrec]
      exact h2.trans h1
    | error e =>
      have h2 := ih ws'
      rcases hrec : run_candidates pc ws' rest with ⟨wsf, rest3⟩
      rw [hrec] at h2
      simp only [hrec]
      exact h2.trans h1

/-- C6: in the per-group body of `process_pending_events`, if the extraction
call raises or any candidate raises, none of the group's event rows is marked
processed and the whole group is scheduled for retry (attempt counts bumped);
the rows are marked `processed = true` with retry state cleared exactly when
extraction and every candidate completed without raising. -/
theorem c6_all_or_nothing_group_marking
    (pc : WriterState → Candidate → WriterState × Except String Bool)
    (hpc : ∀ ws c, ((pc ws c).1).db.events = ws.db.events)
    (extraction : Except String (List Candidate)) (ws : WriterState)
    (scope_events : List MemoryEvent) (now : Time)
    (hmsg : (scope_events.map build_event_message_text).filter (fun t => t ≠ "") ≠ [])
    (hrows : ∀ ev ∈ ws.db.events,
      ev.event_id ∈ scope_events.map (fun e => e.event_id) →
        ev.processed = false ∧ ev.dead_letter = false) :
    (∀ err, extraction = Except.error err →
      ∀ ev ∈ ws.db.events, ev.event_id ∈ scope_events.map (fun e => e.event_id) →
        ∃ ev' ∈ ((process_group pc extraction ws scope_events now).2).db.events,
          ev'.event_id = ev.event_id ∧ ev'.processed = false ∧
            ev'.attempt_count = ev.attempt_count + 1) ∧
    (∀ candidates, extraction = Except.ok candidates →
      ((run_candidates pc ws candidates).2).1 = true →
      ∀ ev ∈ ws.db.events, ev.event_id ∈ scope_events.map (fun e => e.event_id) →
        ∃ ev' ∈ ((process_group pc extraction ws scope_events now).2).db.events,
          ev'.event_id = ev.event_id ∧ ev'.processed = false ∧
            ev'.attempt_count = ev.attempt_count + 1) ∧
    (∀ candidates, extraction = Except.ok candidates →
      ((run_candidates pc ws candidates).2).1 = false →
      ∀ ev ∈ ws.db.events, ev.event_id ∈ scope_events.map (fun e => e.event_id) →
        { ev with processed := true, next_retry_at := none, last_error := none }
          ∈ ((process_group pc extraction ws scope_events now).2).db.events) := by
  refine ⟨?_, ?_, ?_⟩
  · intro err hext ev hmem hid
    subst hext
    unfold process_group
    rw [if_neg hmsg]
    obtain ⟨hp, hd⟩ := hrows ev hmem hid
    refine ⟨retryUpdate RETRY_MAX_ATTEMPTS RETRY_BASE_DELAY_SECONDS RETRY_MAX_DELAY_SECONDS
      (strTake ("extract: " ++ err) 500) now ev, ?_, ?_⟩
    · show _ ∈ ((schedule_retry ws.db _ _ now).events)
      unfold schedule_retry mark_events_retry
      refine List.mem_map.mpr ⟨ev, hmem, ?_⟩
      rw [if_pos ⟨hid, hp, hd⟩]
    · obtain ⟨hu0, hu1, hu2, _, _, _⟩ := retryUpdate_fields RETRY_MAX_ATTEMPTS
        RETRY_BASE_DELAY_SECONDS RETRY_MAX_DELAY_SECONDS
        (strTake ("extract: " ++ err) 500) now ev
      exact ⟨hu0, by rw [hu2, hp], hu1⟩
  · intro candidates hext herr ev hmem hid
    subst hext
    have hevs : ((run_candidates pc ws candidates).1).db.events = ws.db.events :=
      run_candidates_preserves_events pc hpc candidates ws
    unfold process_group
    rw [if_neg hmsg]
    rcases hrc : run_candidates pc ws candidates with ⟨ws', hadErr, firstErr, writes⟩
    rw [hrc] at herr hevs
    simp only at herr
    simp only [hrc, herr, if_true]
    obtain ⟨hp, hd⟩ := hrows ev hmem hid
    refine ⟨retryUpdate RETRY_MAX_ATTEMPTS RETRY_BASE_DELAY_SECONDS RETRY_MAX_DELAY_SECONDS
      (strTake ("pipeline: " ++ firstErr.getD "pipeline error") 500) now ev, ?_, ?_⟩
    · show _ ∈ ((schedule_retry ws'.db _ _ now).events)
      unfold schedule_retry mark_events_retry
      rw [hevs]
      refine List.mem_map.mpr ⟨ev, hmem, ?_⟩
      rw [if_pos ⟨hid, hp, hd⟩]
    · obtain ⟨hu0, hu1, hu2, _, _, _⟩ := retryUpdate_fields RETRY_MAX_ATTEMPTS
        RETRY_BASE_DELAY_SECONDS RETRY_MAX_DELAY_SECONDS
        (strTake ("pipeline: " ++ firstErr.getD "pipeline error") 500) now ev
      exact ⟨hu0, by rw [hu2, hp], hu1⟩
  · intro candidates hext hok ev hmem hid
    subst hext
    have hevs : ((run_candidates pc ws candidates).1).db.events = ws.db.events :=
      run_candidates_preserves_events pc hpc candidates ws
    unfold process_group
    rw [if_neg hmsg]
    rcases hrc : run_candidates pc ws candidates with ⟨ws', hadErr, firstErr, writes⟩
    rw [hrc] at hok hevs
    simp only at hok
    simp only [hrc, hok, if_false, Bool.false_eq_true]
    show _ ∈ ((mark_events_processed ws'.db _).events)
    unfold mark_events_processed
    rw [hevs]
    refine List.mem_map.mpr ⟨ev, hmem, ?_⟩
    rw [if_pos hid]

/-! ## Frame lemmas for the item table -/

theorem update_relation_items (st : DBState) (rid : Nat) (c : Option ℚ) (ec : Option Nat)
    (m : Option Nat) (mt : Option String) (now : Time) :
    (update_relation st rid c ec m mt now).items = st.items := by
  unfold update_relation
  split <;> rfl

theorem upsert_relation_items (st : DBState)
    (scope scope_id subject_key predicate object_text : String) (confidence : ℚ)
    (evidence_count : Nat) (memory_id : Option Nat) (memory_type : Option String)
    (now : Time) :
    ((upsert_relation st scope scope_id subject_key predicate object_text confidence
      evidence_count memory_id memory_type now).2).items = st.items := by
  unfold upsert_relation
  split
  · rfl
  · rcases h : get_active_relation_by_signature st scope scope_id subject_key predicate
        object_text now with _ | existing
    · simp only [h]
      rfl
    · simp only [h]
      exact update_relation_items st existing.relation_id _ _ _ _ now

theorem sync_relation_for_item_items (st : DBState) (scope scope_id : String)
    (memory_id : Nat) (mem_type subject_key fact : String) (confidence : ℚ)
    (evidence_count : Nat) (candidate : Candidate) (now : Time) :
    (sync_relation_for_item st scope scope_id memory_id mem_type subject_key fact confidence
      evidence_count candidate now).items = st.items := by
  unfold sync_relation_for_item
  split
  · rfl
  · dsimp only
    split
    · rfl
    · exact upsert_relation_items st scope scope_id subject_key _ _ _ _ _ _ now

theorem supersede_items_track (st : DBState) (memory_ids : List Nat) (superseded_by : Nat)
    (invalid_at : Option Time) (now : Time) :
    ∃ f : MemoryItem → MemoryItem,
      ((supersede_items st memory_ids superseded_by invalid_at now).2).items =
        st.items.map f ∧
      (∀ it, (f it).memory_id = it.memory_id ∧ (f it).confidence = it.confidence ∧
        (f it).evidence_count = it.evidence_count ∧ (f it).fact = it.fact ∧
        (f it).importance = it.importance ∧ (f it).subject_key = it.subject_key) ∧
      (∀ it, it.status ≠ "active" → f it = it) := by
  unfold supersede_items
  by_cases h : memory_ids = []
  · refine ⟨id, ?_, fun it => by simp, fun it _ => rfl⟩
    rw [if_pos h]
    simp
  · rw [if_neg h]
    refine ⟨_, rfl, fun it => ?_, fun it hst => ?_⟩
    · by_cases hc : it.memory_id ∈ memory_ids ∧ it.status = "active"
      · rw [if_pos hc]
        exact ⟨rfl, rfl, rfl, rfl, rfl, rfl⟩
      · rw [if_neg hc]
        exact ⟨rfl, rfl, rfl, rfl, rfl, rfl⟩
    · rw [if_neg (fun hc => hst hc.2)]

theorem apply_temporal_supersede_track (st : DBState)
    (scope scope_id mem_type subject_key fact_key : String) (new_memory_id : Nat)
    (wp : MemoryWritePolicy) (supersede_at : Option Time) (now : Time) :
    ∃ f : MemoryItem → MemoryItem,
      ((apply_temporal_supersede st scope scope_id mem_type subject_key fact_key
        new_memory_id wp supersede_at now).2).items = st.items.map f ∧
      (∀ it, (f it).memory_id = it.memory_id ∧ (f it).confidence = it.confidence ∧
        (f it).evidence_count = it.evidence_count ∧ (f it).fact = it.fact ∧
        (f it).importance = it.importance ∧ (f it).subject_key = it.subject_key) ∧
      (∀ it, it.status ≠ "active" → f it = it) := by
  unfold apply_temporal_supersede
  split
  · exact ⟨id, by simp, fun it => by simp, fun it _ => rfl⟩
  · split
    · exact ⟨id, by simp, fun it => by simp, fun it _ => rfl⟩
    · split
      · exact ⟨id, by simp, fun it => by simp, fun it _ => rfl⟩
      · dsimp only
        split
        · exact ⟨id, by simp, fun it => by simp, fun it _ => rfl⟩
        · exact supersede_items_track st _ new_memory_id supersede_at now

theorem foldl_insert_evidence_items (memory_id : Nat) (method : String) :
    ∀ (ids : List Nat) (st : DBState),
      (ids.foldl (fun db eid => insert_evidence db memory_id eid method) st).items =
        st.items := by
  intro ids
  induction ids with
  | nil => intro st; rfl
  | cons x rest ih =>
    intro st
    simpa using ih (insert_evidence st memory_id x method)

/-! ## Claims C1 and C2: the merge branch of `_process_candidate` -/

/-- When the candidate passes validation and an item with its fact key
exists, `_process_candidate` takes the merge branch. -/
theorem process_candidate_merge_route (ws : WriterState) (scope scope_id : String)
    (candidate : Candidate) (event_ids : List Nat) (wp : MemoryWritePolicy)
    (retention : String → Option Int) (now : Time) (existing : MemoryItem)
    (hty : optStrFalsy candidate.type = false)
    (hfa : optStrFalsy candidate.fact = false)
    (hfk : optStrFalsy candidate.fact_key = false)
    (hallow : optStr candidate.type ∈ wp.allowed_types)
    (hfind : get_item_by_fact_key ws.db scope scope_id (optStr candidate.fact_key) =
      some existing) :
    process_candidate ws scope scope_id candidate event_ids wp retention now =
      merge_existing ws scope scope_id candidate (optStr candidate.type)
        (optStr candidate.fact)
        (normalize_subject_key candidate.subject_key (optStr candidate.fact_key))
        (candidate.confidence.getD 0.5) (candidate.importance.getD 0.5) event_ids wp now
        existing := by
  unfold process_candidate
  rw [hty, hfa, hfk]
  simp only [Bool.or_self, Bool.false_eq_true, if_false]
  rw [if_neg (not_not_intro hallow), hfind]

/-- Rows updated by `update_item` with the found item's own confidence
(clamped) and evidence count keep those two fields. -/
theorem update_item_keep_fields (st : DBState) (existing : MemoryItem) (now : Time)
    (hconf : existing.confidence ≤ 1)
    (fc sk : Option String) (ni : Option ℚ) (nst : Option String) :
    ∀ it ∈ (update_item st existing.memory_id fc sk (some (min 1 existing.confidence)) ni
        (some existing.evidence_count) nst now).items,
      it.memory_id = existing.memory_id →
        it.evidence_count = existing.evidence_count ∧ it.confidence = existing.confidence := by
  intro it hmem hid
  unfold update_item at hmem
  rw [if_neg (by simp)] at hmem
  obtain ⟨it0, hit0, rfl⟩ := List.mem_map.mp hmem
  by_cases h0 : it0.memory_id = existing.memory_id
  · simp only [if_pos h0]
    exact ⟨rfl, min_eq_right hconf⟩
  · rw [if_neg h0] at hid ⊢
    exact absurd hid h0

/-- After the merge branch's supersession and relation sync, every item row
traces back to a row of the input state with the same id, confidence,
evidence count, fact, importance and subject key. -/
theorem supersede_sync_track (db1 : DBState) (a1 a2 a3 a4 a5 : String) (nid : Nat)
    (wp : MemoryWritePolicy) (sat : Option Time) (now : Time) (b1 b2 : String) (mid2 : Nat)
    (b3 b4 b5 : String) (c2 : ℚ) (e2 : Nat) (cand : Candidate) :
    ∀ it ∈ (sync_relation_for_item
        ((apply_temporal_supersede db1 a1 a2 a3 a4 a5 nid wp sat now).2)
        b1 b2 mid2 b3 b4 b5 c2 e2 cand now).items,
      ∃ it0 ∈ db1.items, it.memory_id = it0.memory_id ∧ it.confidence = it0.confidence ∧
        it.evidence_count = it0.evidence_count ∧ it.fact = it0.fact ∧
        it.importance = it0.importance ∧ it.subject_key = it0.subject_key := by
  intro it hmem
  rw [sync_relation_for_item_items] at hmem
  obtain ⟨f, hmap, hfields, _⟩ := apply_temporal_supersede_track db1 a1 a2 a3 a4 a5 nid wp
    sat now
  rw [hmap] at hmem
  obtain ⟨it0, hit0, rfl⟩ := List.mem_map.mp hmem
  obtain ⟨h1, h2, h3, h4, h5, h6⟩ := hfields it0
  exact ⟨it0, hit0, h1, h2, h3, h4, h5, h6⟩

/-- Merge branch with no newly seen evidence: rows with the found item's id
keep their evidence count and confidence. -/
theorem merge_existing_no_new_evidence (ws : WriterState) (scope scope_id : String)
    (candidate : Candidate) (mem_type fact subject_key : String) (base imp : ℚ)
    (event_ids : List Nat) (wp : MemoryWritePolicy) (now : Time) (existing : MemoryItem)
    (hconf : existing.confidence ≤ 1)
    (huniq : ∀ it ∈ ws.db.items, it.memory_id = existing.memory_id → it = existing)
    (hlinked : ∀ eid ∈ dedupFirst (event_ids.take 3),
      eid ∈ get_existing_evidence_event_ids ws.db existing.memory_id
        (dedupFirst (event_ids.take 3))) :
    ∀ it ∈ ((merge_existing ws scope scope_id candidate mem_type fact subject_key base imp
        event_ids wp now existing).2).db.items,
      it.memory_id = existing.memory_id →
        it.evidence_count = existing.evidence_count ∧ it.confidence = existing.confidence := by
  have hnil : (dedupFirst (event_ids.take 3)).filter
      (fun eid => eid ∉ get_existing_evidence_event_ids ws.db existing.memory_id
        (dedupFirst (event_ids.take 3))) = [] := by
    rw [List.filter_eq_nil_iff]
    intro a ha
    simpa using hlinked a ha
  intro it hmem hid
  unfold merge_existing at hmem
  simp only [hnil, List.length_nil, List.foldl_nil, lt_self_iff_false, if_false, false_and,
    add_zero] at hmem
  by_cases hact : merge_new_status existing mem_type wp existing.evidence_count = "active"
  · rw [if_pos hact] at hmem
    obtain ⟨it0, hit0, e1, e2, e3, _, _, _⟩ := supersede_sync_track _ _ _ _ _ _ _ _ _ _ _ _
      _ _ _ _ _ _ _ it hmem
    rw [e1] at hid
    split at hit0
    · obtain ⟨g1, g2⟩ := update_item_keep_fields ws.db existing now hconf _ _ _ _ it0
        hit0 hid
      exact ⟨e3.trans g1, e2.trans g2⟩
    · have := huniq it0 hit0 hid
      subst this
      exact ⟨e3, e2⟩
  · rw [if_neg hact] at hmem
    split at hmem
    · obtain ⟨g1, g2⟩ := update_item_keep_fields ws.db existing now hconf _ _ _ _ it
        hmem hid
      exact ⟨g1, g2⟩
    · have := huniq it hmem hid
      subst this
      exact ⟨rfl, rfl⟩

/-- C1: re-processing is idempotent at the evidence level: when every
evidence event id of the candidate batch is already linked to the existing
item with the candidate's `(scope, scope_id, fact_key)`, running
`_process_candidate` again leaves that item's `evidence_count` and
`confidence` unchanged — only event ids outside the already-linked set count
as new evidence. -/
theorem c1_idempotent_reprocessing (ws : WriterState) (scope scope_id : String)
    (candidate : Candidate) (event_ids : List Nat) (wp : MemoryWritePolicy)
    (retention : String → Option Int) (now : Time) (existing : MemoryItem)
    (hty : optStrFalsy candidate.type = false)
    (hfa : optStrFalsy candidate.fact = false)
    (hfk : optStrFalsy candidate.fact_key = false)
    (hallow : optStr candidate.type ∈ wp.allowed_types)
    (hfind : get_item_by_fact_key ws.db scope scope_id (optStr candidate.fact_key) =
      some existing)
    (hconf : existing.confidence ≤ 1)
    (huniq : ∀ it ∈ ws.db.items, it.memory_id = existing.memory_id → it = existing)
    (hlinked : ∀ eid ∈ dedupFirst (event_ids.take 3),
      eid ∈ get_existing_evidence_event_ids ws.db existing.memory_id
        (dedupFirst (event_ids.take 3))) :
    ∀ it ∈ ((process_candidate ws scope scope_id candidate event_ids wp retention
        now).2).db.items,
      it.memory_id = existing.memory_id →
        it.evidence_count = existing.evidence_count ∧
          it.confidence = existing.confidence := by
  rw [process_candidate_merge_route ws scope scope_id candidate event_ids wp retention now
    existing hty hfa hfk hallow hfind]
  exact merge_existing_no_new_evidence ws scope scope_id candidate _ _ _ _ _ event_ids wp
    now existing hconf huniq hlinked

/-- Witness for C1 at a concrete store. -/
theorem c1_idempotent_reprocessing_witness :
    get_item_by_fact_key wit1_ws.db "user" "u1" (optStr wit1_cand.fact_key) =
        some wit1_item ∧
    ∀ it ∈ ((process_candidate wit1_ws "user" "u1" wit1_cand [100] wpAuto
        DEFAULT_RETENTION_DAYS 5000).2).db.items,
      it.memory_id = wit1_item.memory_id →
        it.evidence_count = wit1_item.evidence_count ∧
          it.confidence = wit1_item.confidence :=
  ⟨by rfl,
    c1_idempotent_reprocessing wit1_ws "user" "u1" wit1_cand [100] wpAuto
      DEFAULT_RETENTION_DAYS 5000 wit1_item (by decide) (by decide) (by decide) (by decide)
      (by rfl)
      (by norm_num [wit1_item])
      (by
        intro it hit hid
        have h := List.mem_singleton.mp hit
        rw [h])
      (by decide)⟩

/-- Rows after an `update_item` call that passes every field: matching rows
carry the written values, other rows are untouched. -/
theorem update_item_rows (st : DBState) (mid : Nat) (fc sk : String) (cf ni : ℚ) (ec : Nat)
    (nst : String) (now : Time) :
    ∀ it ∈ (update_item st mid (some fc) (some sk) (some cf) (some ni) (some ec)
        (some nst) now).items,
      ∃ it0 ∈ st.items, it.memory_id = it0.memory_id ∧
        (it0.memory_id = mid →
          it.confidence = cf ∧ it.evidence_count = ec ∧ it.fact = fc) ∧
        (it0.memory_id ≠ mid → it = it0) := by
  intro it hmem
  unfold update_item at hmem
  rw [if_neg (by simp)] at hmem
  obtain ⟨it0, hit0, rfl⟩ := List.mem_map.mp hmem
  by_cases h0 : it0.memory_id = mid
  · simp only [if_pos h0]
    exact ⟨it0, hit0, rfl, fun _ => ⟨rfl, rfl, rfl⟩, fun h => absurd h0 h⟩
  · simp only [if_neg h0]
    exact ⟨it0, hit0, rfl, fun h => absurd h h0, fun _ => rfl⟩

/-- The weighted average of two confidences bounded by 1 stays bounded by 1
(`m` old evidence, `k > 0` new evidence). -/
theorem merge_avg_le_one (a s : ℚ) (m k : Nat) (ha : a ≤ 1) (hs : s ≤ 1) (hk : 0 < k) :
    (a * m + s * k) / ((m + k : Nat) : ℚ) ≤ 1 := by
  have hden : (0 : ℚ) < ((m + k : Nat) : ℚ) := by
    exact_mod_cast Nat.add_pos_right m hk
  rw [div_le_one hden]
  push_cast
  have h1 : a * m ≤ 1 * m :=
    mul_le_mul_of_nonneg_right ha (by exact_mod_cast Nat.zero_le m)
  have h2 : s * k ≤ 1 * k :=
    mul_le_mul_of_nonneg_right hs (by exact_mod_cast Nat.zero_le k)
  nlinarith

/-- `update_item` keeps the number of item rows. -/
theorem update_item_length (st : DBState) (mid : Nat) (fc sk : Option String)
    (cf ni : Option ℚ) (ec : Option Nat) (nst : Option String) (now : Time) :
    (update_item st mid fc sk cf ni ec nst now).items.length = st.items.length := by
  unfold update_item
  split
  · rfl
  · simp

/-- Merge branch with `k > 0` newly seen evidence events: no item row is
added or removed, and the found item's row gets `evidence_count + k`, the
evidence-count-weighted average of the old confidence and the scored
confidence, and the new fact text exactly when the scored confidence
strictly exceeds the old one. -/
theorem merge_existing_new_evidence (ws : WriterState) (scope scope_id : String)
    (candidate : Candidate) (mem_type fact subject_key : String) (base imp : ℚ)
    (event_ids : List Nat) (wp : MemoryWritePolicy) (now : Time) (existing : MemoryItem)
    (newIds : List Nat) (k : Nat) (scored : ℚ)
    (hnew : newIds = (dedupFirst (event_ids.take 3)).filter (fun eid =>
      eid ∉ get_existing_evidence_event_ids ws.db existing.memory_id
        (dedupFirst (event_ids.take 3))))
    (hkdef : k = newIds.length)
    (hscored : scored = merge_scored_confidence base (existing.evidence_count + k))
    (hk : 0 < k)
    (hconf : existing.confidence ≤ 1) :
    (((merge_existing ws scope scope_id candidate mem_type fact subject_key base imp
        event_ids wp now existing).2).db.items.length = ws.db.items.length) ∧
    (∀ it ∈ ((merge_existing ws scope scope_id candidate mem_type fact subject_key base imp
        event_ids wp now existing).2).db.items,
      it.memory_id = existing.memory_id →
        it.evidence_count = existing.evidence_count + k ∧
        it.confidence = (existing.confidence * existing.evidence_count + scored * k) /
          ((existing.evidence_count + k : Nat) : ℚ) ∧
        it.fact = (if existing.confidence < scored then fact else existing.fact)) := by
  have hs1 : scored ≤ 1 := by
    rw [hscored]
    exact min_le_left 1 _
  have havg : (existing.confidence * existing.evidence_count + scored * k) /
      ((existing.evidence_count + k : Nat) : ℚ) ≤ 1 :=
    merge_avg_le_one existing.confidence scored existing.evidence_count k hconf hs1 hk
  have hne : existing.evidence_count + k ≠ existing.evidence_count := by omega
  unfold merge_existing
  dsimp only
  rw [← hnew, ← hkdef]
  rw [← hscored]
  simp only [hk, if_true, true_and]
  have hch : ((if existing.confidence < scored then fact else existing.fact) ≠
        existing.fact ∨
      some (merge_new_subject_key existing subject_key) ≠ existing.subject_key ∨
      (existing.confidence * existing.evidence_count + scored * k) /
          ((existing.evidence_count + k : Nat) : ℚ) ≠ existing.confidence ∨
      max existing.importance imp ≠ existing.importance ∨
      existing.evidence_count + k ≠ existing.evidence_count ∨
      merge_new_status existing mem_type wp (existing.evidence_count + k) ≠
        existing.status) :=
    Or.inr (Or.inr (Or.inr (Or.inr (Or.inl hne))))
  rw [if_pos hch]
  constructor
  · by_cases hact :
        merge_new_status existing mem_type wp (existing.evidence_count + k) = "active"
    · rw [if_pos hact]
      rw [sync_relation_for_item_items]
      obtain ⟨f, hmap, _, _⟩ := apply_temporal_supersede_track _ _ _ _ _ _ _ _ _ _
      rw [hmap, List.length_map, foldl_insert_evidence_items, update_item_length]
    · rw [if_neg hact]
      rw [foldl_insert_evidence_items, update_item_length]
  · intro it hmem hid
    by_cases hact :
        merge_new_status existing mem_type wp (existing.evidence_count + k) = "active"
    · rw [if_pos hact] at hmem
      obtain ⟨it1, hit1, e1, e2, e3, e4, _, _⟩ := supersede_sync_track _ _ _ _ _ _ _ _ _ _
        _ _ _ _ _ _ _ _ _ it hmem
      rw [foldl_insert_evidence_items] at hit1
      obtain ⟨it0, hit0, f1, f2, f3⟩ := update_item_rows _ _ _ _ _ _ _ _ _ it1 hit1
      rw [e1, f1] at hid
      obtain ⟨g1, g2, g3⟩ := f2 hid
      refine ⟨e3.trans g2, ?_, e4.trans g3⟩
      rw [e2, g1]
      exact min_eq_right havg
    · rw [if_neg hact] at hmem
      rw [foldl_insert_evidence_items] at hmem
      obtain ⟨it0, hit0, f1, f2, f3⟩ := update_item_rows _ _ _ _ _ _ _ _ _ it hmem
      rw [f1] at hid
      obtain ⟨g1, g2, g3⟩ := f2 hid
      refine ⟨g2, ?_, g3⟩
      rw [g1]
      exact min_eq_right havg

/-- The merge scoring formula spelt out: source quality weight `0.8` for
`llm_extract`, repetition bonus capped at `1.5`. -/
theorem merge_scored_confidence_eq (base : ℚ) (total_count : Nat) :
    merge_scored_confidence base total_count =
      min 1 (base * 0.8 * min 1.5 (1 + 0.1 * ((total_count : ℚ) - 1))) := rfl

/-- C2: submitting a candidate whose fact key matches an existing item in the
same scope never creates a second item; when it brings `k > 0` newly seen
evidence events the item's `evidence_count` grows by `k`, its confidence
becomes the evidence-count-weighted average of the old confidence and
`scored = min(1, base * 0.8 * min(1.5, 1 + 0.1*(new_evidence_count - 1)))`,
and the fact text is replaced by the candidate's exactly when `scored`
strictly exceeds the old confidence. -/
theorem c2_merge_not_duplicate (ws : WriterState) (scope scope_id : String)
    (candidate : Candidate) (event_ids : List Nat) (wp : MemoryWritePolicy)
    (retention : String → Option Int) (now : Time) (existing : MemoryItem)
    (newIds : List Nat) (k : Nat) (scored : ℚ)
    (hty : optStrFalsy candidate.type = false)
    (hfa : optStrFalsy candidate.fact = false)
    (hfk : optStrFalsy candidate.fact_key = false)
    (hallow : optStr candidate.type ∈ wp.allowed_types)
    (hfind : get_item_by_fact_key ws.db scope scope_id (optStr candidate.fact_key) =
      some existing)
    (hnew : newIds = (dedupFirst (event_ids.take 3)).filter (fun eid =>
      eid ∉ get_existing_evidence_event_ids ws.db existing.memory_id
        (dedupFirst (event_ids.take 3))))
    (hkdef : k = newIds.length)
    (hscored : scored = min 1 ((candidate.confidence.getD 0.5) * 0.8 *
      min 1.5 (1 + 0.1 * (((existing.evidence_count + k : Nat) : ℚ) - 1))))
    (hk : 0 < k)
    (hconf : existing.confidence ≤ 1) :
    (((process_candidate ws scope scope_id candidate event_ids wp retention
        now).2).db.items.length = ws.db.items.length) ∧
    (∀ it ∈ ((process_candidate ws scope scope_id candidate event_ids wp retention
        now).2).db.items,
      it.memory_id = existing.memory_id →
        it.evidence_count = existing.evidence_count + k ∧
        it.confidence = (existing.confidence * existing.evidence_count + scored * k) /
          ((existing.evidence_count + k : Nat) : ℚ) ∧
        it.fact = (if existing.confidence < scored then optStr candidate.fact
          else existing.fact)) := by
  rw [process_candidate_merge_route ws scope scope_id candidate event_ids wp retention now
    existing hty hfa hfk hallow hfind]
  exact merge_existing_new_evidence ws scope scope_id candidate _ _ _ _ _ event_ids wp now
    existing newIds k scored hnew hkdef
    (by rw [hscored, merge_scored_confidence_eq]) hk hconf

/-- Witness for C2 at a concrete store: a second evidence event for the same
fact key merges instead of duplicating. -/
theorem c2_merge_not_duplicate_witness :
    (((process_candidate wit1_ws "user" "u1" wit1_cand [101] wpAuto
        DEFAULT_RETENTION_DAYS 5000).2).db.items.length = wit1_ws.db.items.length) ∧
    (∀ it ∈ ((process_candidate wit1_ws "user" "u1" wit1_cand [101] wpAuto
        DEFAULT_RETENTION_DAYS 5000).2).db.items,
      it.memory_id = wit1_item.memory_id →
        it.evidence_count = wit1_item.evidence_count + 1 ∧
        it.confidence = (wit1_item.confidence * wit1_item.evidence_count +
          merge_scored_confidence 0.9 2 * 1) /
          ((wit1_item.evidence_count + 1 : Nat) : ℚ) ∧
        it.fact = (if wit1_item.confidence < merge_scored_confidence 0.9 2 then
          optStr wit1_cand.fact else wit1_item.fact)) :=
  c2_merge_not_duplicate wit1_ws "user" "u1" wit1_cand [101] wpAuto
    DEFAULT_RETENTION_DAYS 5000 wit1_item [101] 1 (merge_scored_confidence 0.9 2)
    (by decide) (by decide) (by decide) (by decide) (by rfl) (by decide) (by decide)
    (by norm_num [merge_scored_confidence_eq, wit1_item, wit1_cand]) (by decide)
    (by norm_num [wit1_item])

/-! ## Claims C4, C9, C10: capacity, eviction and the confidence gate -/

/-- `update_item` with only a status is exactly an expire/restatus map on the
matching rows. -/
theorem update_item_status_only (st : DBState) (mid : Nat) (nst : String) (now : Time) :
    update_item st mid none none none none none (some nst) now =
      { st with items := st.items.map (fun it => if it.memory_id = mid then
          { it with status := nst, updated_at := now } else it) } := by
  unfold update_item
  rw [if_neg (by simp)]
  rfl

/-- When validation passes and no item with the fact key exists,
`_process_candidate` takes the new-item branch. -/
theorem process_candidate_new_route (ws : WriterState) (scope scope_id : String)
    (candidate : Candidate) (event_ids : List Nat) (wp : MemoryWritePolicy)
    (retention : String → Option Int) (now : Time)
    (hty : optStrFalsy candidate.type = false)
    (hfa : optStrFalsy candidate.fact = false)
    (hfk : optStrFalsy candidate.fact_key = false)
    (hallow : optStr candidate.type ∈ wp.allowed_types)
    (hfind : get_item_by_fact_key ws.db scope scope_id (optStr candidate.fact_key) =
      none) :
    process_candidate ws scope scope_id candidate event_ids wp retention now =
      process_new_item ws scope scope_id candidate (optStr candidate.type)
        (optStr candidate.fact) (optStr candidate.fact_key)
        (normalize_subject_key candidate.subject_key (optStr candidate.fact_key))
        (candidate.confidence.getD 0.5) (candidate.importance.getD 0.5) event_ids wp
        retention now := by
  unfold process_candidate
  rw [hty, hfa, hfk]
  simp only [Bool.or_self, Bool.false_eq_true, if_false]
  rw [if_neg (not_not_intro hallow), hfind]

/-- A nonempty eviction-candidate answer starts with an active-or-shadow item
of the store. -/
theorem eviction_candidate_props (st : DBState) (scope scope_id : String) (limit : Nat)
    (victim : MemoryItem) (rest : List MemoryItem)
    (hvic : get_eviction_candidates st scope scope_id limit = victim :: rest) :
    victim ∈ st.items ∧ (victim.status = "active" ∨ victim.status = "shadow") := by
  have hmem : victim ∈ get_eviction_candidates st scope scope_id limit := by
    rw [hvic]
    exact List.mem_cons_self victim rest
  unfold get_eviction_candidates at hmem
  have h1 := List.take_subset _ _ hmem
  have h2 := (List.mem_insertionSort evictionOrder).mp h1
  have h3 := List.mem_filter.mp h2
  refine ⟨h3.1, ?_⟩
  have := h3.2
  simp only [decide_eq_true_eq] at this
  exact this.2.2

/-- `insert_item` appends the new row. -/
theorem insert_item_items (st : DBState) (a1 a2 a3 a4 a5 : String) (sk : Option String)
    (c i : ℚ) (ec : Nat) (ttl : Option Int) (stt : String) (va ia : Option Time)
    (sb : Option Nat) (now : Time) :
    ((insert_item st a1 a2 a3 a4 a5 sk c i ec ttl stt va ia sb now).2).items =
      st.items ++ [(insert_item st a1 a2 a3 a4 a5 sk c i ec ttl stt va ia sb now).1] := rfl

/-- The inserted row carries the fresh id. -/
theorem insert_item_memory_id (st : DBState) (a1 a2 a3 a4 a5 : String)
    (sk : Option String) (c i : ℚ) (ec : Nat) (ttl : Option Int) (stt : String)
    (va ia : Option Time) (sb : Option Nat) (now : Time) :
    ((insert_item st a1 a2 a3 a4 a5 sk c i ec ttl stt va ia sb now).1).memory_id =
      st.next_id := rfl

/-- `update_item` does not touch the fresh-id counter. -/
theorem update_item_next_id (st : DBState) (mid : Nat) (fc sk : Option String)
    (cf ni : Option ℚ) (ec : Option Nat) (nst : Option String) (now : Time) :
    (update_item st mid fc sk cf ni ec nst now).next_id = st.next_id := by
  unfold update_item
  split <;> rfl

/-- Behaviour of the new-item branch at capacity with eviction enabled: the
candidate is compared (with fixed recency `1`) against the first eviction
candidate; on a tie or loss it is rejected with the store untouched; on a
strict win the victim is expired, and the candidate is then inserted exactly
when its scored confidence passes the confidence gate. -/
theorem process_new_item_capacity (ws : WriterState) (scope scope_id : String)
    (candidate : Candidate) (mem_type fact fact_key subject_key : String) (base imp : ℚ)
    (event_ids : List Nat) (wp : MemoryWritePolicy) (retention : String → Option Int)
    (now : Time) (victim : MemoryItem) (rest : List MemoryItem)
    (h1 : (prune_hourly_writes ws.hourly_writes now).length < wp.max_writes_per_hour)
    (h2 : ws.session_write_counts (scope ++ ":" ++ scope_id) < wp.max_writes_per_session)
    (hcap : wp.max_items_per_scope ≤ count_items_for_scope ws.db scope scope_id)
    (hev : wp.eviction_enabled = true)
    (hvic : get_eviction_candidates ws.db scope scope_id 1 = victim :: rest) :
    (compute_priority_score imp base 1 ≤
        compute_priority_score victim.importance victim.confidence 1 →
      (process_new_item ws scope scope_id candidate mem_type fact fact_key subject_key
          base imp event_ids wp retention now).1 = false ∧
      ((process_new_item ws scope scope_id candidate mem_type fact fact_key subject_key
          base imp event_ids wp retention now).2).db = ws.db) ∧
    (compute_priority_score victim.importance victim.confidence 1 <
        compute_priority_score imp base 1 →
      (min 1 (base * 0.8) < wp.min_confidence →
        (process_new_item ws scope scope_id candidate mem_type fact fact_key subject_key
            base imp event_ids wp retention now).1 = false ∧
        ((process_new_item ws scope scope_id candidate mem_type fact fact_key subject_key
            base imp event_ids wp retention now).2).db =
          update_item ws.db victim.memory_id none none none none none (some "expired")
            now) ∧
      (wp.min_confidence ≤ min 1 (base * 0.8) →
        (process_new_item ws scope scope_id candidate mem_type fact fact_key subject_key
            base imp event_ids wp retention now).1 = true ∧
        ((process_new_item ws scope scope_id candidate mem_type fact fact_key subject_key
            base imp event_ids wp retention now).2).db.items.length =
          ws.db.items.length + 1) ∧
      (victim.memory_id ≠ ws.db.next_id →
        ∀ it ∈ ((process_new_item ws scope scope_id candidate mem_type fact fact_key
            subject_key base imp event_ids wp retention now).2).db.items,
          it.memory_id = victim.memory_id → it.status = "expired")) := by
  unfold process_new_item
  dsimp only
  rw [if_neg (Nat.not_le.mpr h1), if_neg (Nat.not_le.mpr h2), if_pos hcap,
    if_neg (by simp [hev]), hvic]
  dsimp only
  by_cases hcmp : compute_priority_score imp base 1 ≤
      compute_priority_score victim.importance victim.confidence 1
  · rw [if_pos hcmp]
    exact ⟨fun _ => ⟨rfl, rfl⟩, fun hgt => absurd hcmp (not_le.mpr hgt)⟩
  · rw [if_neg hcmp]
    dsimp only
    refine ⟨fun hle => absurd hle hcmp, fun _ => ?_⟩
    generalize (if 1 < max 1 wp.min_evidence_count then "shadow"
      else resolve_status_for_policy mem_type wp) = stt
    generalize (match retention mem_type with
      | some d => if d < 0 then none else some d
      | none => none : Option Int) = ttl
    refine ⟨?_, ?_, ?_⟩
    · intro hlt
      rw [if_pos (show min 1 (base * ((SOURCE_QUALITY "llm_extract").getD 0.8)) <
        wp.min_confidence from hlt)]
      exact ⟨rfl, rfl⟩
    · intro hge
      rw [if_neg (not_lt.mpr (show wp.min_confidence ≤
        min 1 (base * ((SOURCE_QUALITY "llm_extract").getD 0.8)) from hge))]
      dsimp only
      refine ⟨rfl, ?_⟩
      split
      · rw [sync_relation_for_item_items]
        obtain ⟨f, hmap, _, _⟩ := apply_temporal_supersede_track _ _ _ _ _ _ _ _ _ _
        rw [hmap, List.length_map, foldl_insert_evidence_items, insert_item_items,
          List.length_append, update_item_length]
        rfl
      · rw [foldl_insert_evidence_items, insert_item_items, List.length_append,
          update_item_length]
        rfl
    · intro hfresh
      have htrack : ∀ {X : DBState}, X = update_item ws.db victim.memory_id none none
          none none none (some "expired") now →
          ∀ it' ∈ X.items ++ [(insert_item X scope scope_id mem_type fact fact_key
            (some subject_key) (min 1 (base * ((SOURCE_QUALITY "llm_extract").getD 0.8)))
            imp 1 ttl stt (some now) none none now).1],
          it'.memory_id = victim.memory_id → it'.status = "expired" := by
        intro X hX it' hit' hid'
        rcases List.mem_append.mp hit' with hin | hin
        · rw [hX, update_item_status_only] at hin
          obtain ⟨it0, hit0, rfl⟩ := List.mem_map.mp hin
          by_cases h0 : it0.memory_id = victim.memory_id
          · simp only [if_pos h0]
          · rw [if_neg h0] at hid'
            exact absurd hid' h0
        · rw [List.mem_singleton.mp hin, insert_item_memory_id, hX,
            update_item_next_id] at hid'
          exact absurd hid'.symm hfresh
      by_cases hgate : min 1 (base * ((SOURCE_QUALITY "llm_extract").getD 0.8)) <
          wp.min_confidence
      · rw [if_pos hgate]
        intro it hmem hid
        rw [update_item_status_only] at hmem
        obtain ⟨it0, hit0, rfl⟩ := List.mem_map.mp hmem
        by_cases h0 : it0.memory_id = victim.memory_id
        · simp only [if_pos h0]
        · rw [if_neg h0] at hid ⊢
          exact absurd hid h0
      · rw [if_neg hgate]
        dsimp only
        intro it hmem
        split at hmem
        · rw [sync_relation_for_item_items] at hmem
          obtain ⟨f, hmap, hfields, hkeep⟩ := apply_temporal_supersede_track _ _ _ _ _ _
            _ _ _ _
          rw [hmap, foldl_insert_evidence_items, insert_item_items] at hmem
          obtain ⟨it1, hit1, rfl⟩ := List.mem_map.mp hmem
          intro hid
          rw [(hfields it1).1] at hid
          have hst1 : it1.status = "expired" := htrack rfl it1 hit1 hid
          rw [hkeep it1 (by rw [hst1]; decide)]
          exact hst1
        · rw [foldl_insert_evidence_items, insert_item_items] at hmem
          intro hid
          exact htrack rfl it hmem hid

/-- C4: at capacity with eviction enabled, the candidate's priority
`importance*0.4 + 1.0*0.3 + confidence*0.3` is compared against the single
lowest-priority active/shadow item; if it is not strictly greater the
candidate is rejected and the store is unchanged, otherwise the resident is
marked `expired` and the candidate proceeds (and is inserted when its scored
confidence passes the gate). -/
theorem c4_eviction_strict_dominance (ws : WriterState) (scope scope_id : String)
    (candidate : Candidate) (event_ids : List Nat) (wp : MemoryWritePolicy)
    (retention : String → Option Int) (now : Time) (victim : MemoryItem)
    (rest : List MemoryItem)
    (hty : optStrFalsy candidate.type = false)
    (hfa : optStrFalsy candidate.fact = false)
    (hfk : optStrFalsy candidate.fact_key = false)
    (hallow : optStr candidate.type ∈ wp.allowed_types)
    (hfind : get_item_by_fact_key ws.db scope scope_id (optStr candidate.fact_key) = none)
    (h1 : (prune_hourly_writes ws.hourly_writes now).length < wp.max_writes_per_hour)
    (h2 : ws.session_write_counts (scope ++ ":" ++ scope_id) < wp.max_writes_per_session)
    (hcap : wp.max_items_per_scope ≤ count_items_for_scope ws.db scope scope_id)
    (hev : wp.eviction_enabled = true)
    (hvic : get_eviction_candidates ws.db scope scope_id 1 = victim :: rest)
    (hfresh : victim.memory_id ≠ ws.db.next_id) :
    (compute_priority_score (candidate.importance.getD 0.5)
        (candidate.confidence.getD 0.5) 1 ≤
        compute_priority_score victim.importance victim.confidence 1 →
      (process_candidate ws scope scope_id candidate event_ids wp retention now).1 =
        false ∧
      ((process_candidate ws scope scope_id candidate event_ids wp retention
        now).2).db = ws.db) ∧
    (compute_priority_score victim.importance victim.confidence 1 <
        compute_priority_score (candidate.importance.getD 0.5)
          (candidate.confidence.getD 0.5) 1 →
      (∀ it ∈ ((process_candidate ws scope scope_id candidate event_ids wp retention
          now).2).db.items,
        it.memory_id = victim.memory_id → it.status = "expired") ∧
      (wp.min_confidence ≤ min 1 ((candidate.confidence.getD 0.5) * 0.8) →
        (process_candidate ws scope scope_id candidate event_ids wp retention now).1 =
          true ∧
        ((process_candidate ws scope scope_id candidate event_ids wp retention
          now).2).db.items.length = ws.db.items.length + 1)) := by
  rw [process_candidate_new_route ws scope scope_id candidate event_ids wp retention now
    hty hfa hfk hallow hfind]
  obtain ⟨ha, hb⟩ := process_new_item_capacity ws scope scope_id candidate
    (optStr candidate.type) (optStr candidate.fact) (optStr candidate.fact_key)
    (normalize_subject_key candidate.subject_key (optStr candidate.fact_key))
    (candidate.confidence.getD 0.5) (candidate.importance.getD 0.5) event_ids wp
    retention now victim rest h1 h2 hcap hev hvic
  refine ⟨ha, fun hgt => ?_⟩
  obtain ⟨hb1, hb2, hb3⟩ := hb hgt
  exact ⟨hb3 hfresh, fun hge => hb2 hge⟩

/-- Witness for C4: the dominant candidate expires the resident and is
inserted; the weaker branch hypotheses are discharged at this input. -/
theorem c4_eviction_strict_dominance_witness :
    (compute_priority_score (ev_cand_win.importance.getD 0.5)
        (ev_cand_win.confidence.getD 0.5) 1 ≤
        compute_priority_score ev_victim.importance ev_victim.confidence 1 →
      (process_candidate ev_ws "user" "u1" ev_cand_win [7] ev_wp
        DEFAULT_RETENTION_DAYS ev_now).1 = false ∧
      ((process_candidate ev_ws "user" "u1" ev_cand_win [7] ev_wp
        DEFAULT_RETENTION_DAYS ev_now).2).db = ev_ws.db) ∧
    (compute_priority_score ev_victim.importance ev_victim.confidence 1 <
        compute_priority_score (ev_cand_win.importance.getD 0.5)
          (ev_cand_win.confidence.getD 0.5) 1 →
      (∀ it ∈ ((process_candidate ev_ws "user" "u1" ev_cand_win [7] ev_wp
          DEFAULT_RETENTION_DAYS ev_now).2).db.items,
        it.memory_id = ev_victim.memory_id → it.status = "expired") ∧
      (ev_wp.min_confidence ≤ min 1 ((ev_cand_win.confidence.getD 0.5) * 0.8) →
        (process_candidate ev_ws "user" "u1" ev_cand_win [7] ev_wp
          DEFAULT_RETENTION_DAYS ev_now).1 = true ∧
        ((process_candidate ev_ws "user" "u1" ev_cand_win [7] ev_wp
          DEFAULT_RETENTION_DAYS ev_now).2).db.items.length =
          ev_ws.db.items.length + 1)) :=
  c4_eviction_strict_dominance ev_ws "user" "u1" ev_cand_win [7] ev_wp
    DEFAULT_RETENTION_DAYS ev_now ev_victim [] (by decide) (by decide) (by decide)
    (by decide) (by rfl) (by decide) (by decide) (by decide) (by rfl) (by rfl)
    (by decide)

/-- C10: a candidate that wins eviction but fails the confidence gate is
rejected, yet the victim has already been expired: the only store change is
the victim row's status (and `updated_at`); events, evidence, relations and
the id counter are untouched. -/
theorem c10_eviction_precedes_confidence_gate (ws : WriterState)
    (scope scope_id : String) (candidate : Candidate) (event_ids : List Nat)
    (wp : MemoryWritePolicy) (retention : String → Option Int) (now : Time)
    (victim : MemoryItem) (rest : List MemoryItem)
    (hty : optStrFalsy candidate.type = false)
    (hfa : optStrFalsy candidate.fact = false)
    (hfk : optStrFalsy candidate.fact_key = false)
    (hallow : optStr candidate.type ∈ wp.allowed_types)
    (hfind : get_item_by_fact_key ws.db scope scope_id (optStr candidate.fact_key) = none)
    (h1 : (prune_hourly_writes ws.hourly_writes now).length < wp.max_writes_per_hour)
    (h2 : ws.session_write_counts (scope ++ ":" ++ scope_id) < wp.max_writes_per_session)
    (hcap : wp.max_items_per_scope ≤ count_items_for_scope ws.db scope scope_id)
    (hev : wp.eviction_enabled = true)
    (hvic : get_eviction_candidates ws.db scope scope_id 1 = victim :: rest)
    (hgt : compute_priority_score victim.importance victim.confidence 1 <
      compute_priority_score (candidate.importance.getD 0.5)
        (candidate.confidence.getD 0.5) 1)
    (hlt : min 1 ((candidate.confidence.getD 0.5) * 0.8) < wp.min_confidence) :
    (process_candidate ws scope scope_id candidate event_ids wp retention now).1 =
      false ∧
    ((process_candidate ws scope scope_id candidate event_ids wp retention
      now).2).db.events = ws.db.events ∧
    ((process_candidate ws scope scope_id candidate event_ids wp retention
      now).2).db.evidence = ws.db.evidence ∧
    ((process_candidate ws scope scope_id candidate event_ids wp retention
      now).2).db.relations = ws.db.relations ∧
    ((process_candidate ws scope scope_id candidate event_ids wp retention
      now).2).db.next_id = ws.db.next_id ∧
    ((process_candidate ws scope scope_id candidate event_ids wp retention
      now).2).db.items = ws.db.items.map (fun it =>
        if it.memory_id = victim.memory_id then
          { it with status := "expired", updated_at := now } else it) := by
  rw [process_candidate_new_route ws scope scope_id candidate event_ids wp retention now
    hty hfa hfk hallow hfind]
  obtain ⟨ha, hb⟩ := process_new_item_capacity ws scope scope_id candidate
    (optStr candidate.type) (optStr candidate.fact) (optStr candidate.fact_key)
    (normalize_subject_key candidate.subject_key (optStr candidate.fact_key))
    (candidate.confidence.getD 0.5) (candidate.importance.getD 0.5) event_ids wp
    retention now victim rest h1 h2 hcap hev hvic
  obtain ⟨hb1, _, _⟩ := hb hgt
  obtain ⟨hres, hdb⟩ := hb1 hlt
  rw [update_item_status_only] at hdb
  exact ⟨hres, by rw [hdb], by rw [hdb], by rw [hdb], by rw [hdb], by rw [hdb]⟩

/-- Witness for C10: the weak-but-dominant candidate is rejected while the
resident has already been expired. -/
theorem c10_eviction_precedes_confidence_gate_witness :
    (process_candidate ev_ws "user" "u1" ev_cand_weak [7] ev_wp
      DEFAULT_RETENTION_DAYS ev_now).1 = false ∧
    ((process_candidate ev_ws "user" "u1" ev_cand_weak [7] ev_wp
      DEFAULT_RETENTION_DAYS ev_now).2).db.events = ev_ws.db.events ∧
    ((process_candidate ev_ws "user" "u1" ev_cand_weak [7] ev_wp
      DEFAULT_RETENTION_DAYS ev_now).2).db.evidence = ev_ws.db.evidence ∧
    ((process_candidate ev_ws "user" "u1" ev_cand_weak [7] ev_wp
      DEFAULT_RETENTION_DAYS ev_now).2).db.relations = ev_ws.db.relations ∧
    ((process_candidate ev_ws "user" "u1" ev_cand_weak [7] ev_wp
      DEFAULT_RETENTION_DAYS ev_now).2).db.next_id = ev_ws.db.next_id ∧
    ((process_candidate ev_ws "user" "u1" ev_cand_weak [7] ev_wp
      DEFAULT_RETENTION_DAYS ev_now).2).db.items = ev_ws.db.items.map (fun it =>
        if it.memory_id = ev_victim.memory_id then
          { it with status := "expired", updated_at := ev_now } else it) :=
  c10_eviction_precedes_confidence_gate ev_ws "user" "u1" ev_cand_weak [7] ev_wp
    DEFAULT_RETENTION_DAYS ev_now ev_victim [] (by decide) (by decide) (by decide)
    (by decide) (by rfl) (by decide) (by decide) (by decide) (by rfl) (by rfl)
    (by norm_num [compute_priority_score, ev_victim, ev_cand_weak])
    (by norm_num [ev_cand_weak, ev_wp, wpAuto])

/-- C9, counterexample to the claim as stated: in the capacity comparison the
victim's priority is computed by `_compute_priority_score` with the *default*
recency `1.0`, not with a real recency decay.  Concretely: resident and
candidate have equal importance and confidence, the resident is 30 days
stale; under the claimed asymmetric scoring the resident's decayed priority
(`0.5`) is strictly below the candidate's (`0.65`), so the claim predicts an
eviction — but the code compares `0.65 ≤ 0.65`, rejects the candidate and
leaves the store untouched. -/
theorem c9_counterexample :
    (process_candidate ev_ws "user" "u1" ev_cand_tie [7] ev_wp
      DEFAULT_RETENTION_DAYS ev_now).1 = false ∧
    ((process_candidate ev_ws "user" "u1" ev_cand_tie [7] ev_wp
      DEFAULT_RETENTION_DAYS ev_now).2).db = ev_ws.db ∧
    compute_priority_score ev_victim.importance ev_victim.confidence
        (time_decay ev_victim.updated_at ev_now 30) <
      compute_priority_score (ev_cand_tie.importance.getD 0.5)
        (ev_cand_tie.confidence.getD 0.5) 1 := by
  have route := process_candidate_new_route ev_ws "user" "u1" ev_cand_tie [7] ev_wp
    DEFAULT_RETENTION_DAYS ev_now (by decide) (by decide) (by decide) (by decide)
    (by rfl)
  obtain ⟨ha, _⟩ := process_new_item_capacity ev_ws "user" "u1" ev_cand_tie
    (optStr ev_cand_tie.type) (optStr ev_cand_tie.fact) (optStr ev_cand_tie.fact_key)
    (normalize_subject_key ev_cand_tie.subject_key (optStr ev_cand_tie.fact_key))
    (ev_cand_tie.confidence.getD 0.5) (ev_cand_tie.importance.getD 0.5) [7] ev_wp
    DEFAULT_RETENTION_DAYS ev_now ev_victim [] (by decide) (by decide) (by decide)
    (by rfl) (by rfl)
  obtain ⟨hr, hdb⟩ := ha (by norm_num [compute_priority_score, ev_victim, ev_cand_tie])
  refine ⟨by rw [route]; exact hr, by rw [route]; exact hdb, ?_⟩
  norm_num [compute_priority_score, time_decay, ev_victim, ev_cand_tie, ev_now]

/-- C9 as amended: both sides of the capacity comparison use the fixed
recency `1.0` (real recency enters only through the victim-selection
ordering of `get_eviction_candidates`), so the store survives unchanged
exactly when the candidate's `importance*0.4 + confidence*0.3` does not
strictly exceed the victim's. -/
theorem c9_amended_fixed_recency_both_sides (ws : WriterState) (scope scope_id : String)
    (candidate : Candidate) (event_ids : List Nat) (wp : MemoryWritePolicy)
    (retention : String → Option Int) (now : Time) (victim : MemoryItem)
    (rest : List MemoryItem)
    (hty : optStrFalsy candidate.type = false)
    (hfa : optStrFalsy candidate.fact = false)
    (hfk : optStrFalsy candidate.fact_key = false)
    (hallow : optStr candidate.type ∈ wp.allowed_types)
    (hfind : get_item_by_fact_key ws.db scope scope_id (optStr candidate.fact_key) = none)
    (h1 : (prune_hourly_writes ws.hourly_writes now).length < wp.max_writes_per_hour)
    (h2 : ws.session_write_counts (scope ++ ":" ++ scope_id) < wp.max_writes_per_session)
    (hcap : wp.max_items_per_scope ≤ count_items_for_scope ws.db scope scope_id)
    (hev : wp.eviction_enabled = true)
    (hvic : get_eviction_candidates ws.db scope scope_id 1 = victim :: rest)
    (hfresh : victim.memory_id ≠ ws.db.next_id) :
    (((process_candidate ws scope scope_id candidate event_ids wp retention
        now).2).db.items = ws.db.items ↔
      compute_priority_score (candidate.importance.getD 0.5)
          (candidate.confidence.getD 0.5) 1 ≤
        compute_priority_score victim.importance victim.confidence 1) ∧
    (∀ i c i' c' : ℚ,
      compute_priority_score i c 1 ≤ compute_priority_score i' c' 1 ↔
        i * 0.4 + c * 0.3 ≤ i' * 0.4 + c' * 0.3) := by
  rw [process_candidate_new_route ws scope scope_id candidate event_ids wp retention now
    hty hfa hfk hallow hfind]
  obtain ⟨ha, hb⟩ := process_new_item_capacity ws scope scope_id candidate
    (optStr candidate.type) (optStr candidate.fact) (optStr candidate.fact_key)
    (normalize_subject_key candidate.subject_key (optStr candidate.fact_key))
    (candidate.confidence.getD 0.5) (candidate.importance.getD 0.5) event_ids wp
    retention now victim rest h1 h2 hcap hev hvic
  constructor
  · constructor
    · intro heq
      by_contra hnle
      have hgt := not_le.mp hnle
      obtain ⟨_, _, hb3⟩ := hb hgt
      obtain ⟨hvmem, hvst⟩ := eviction_candidate_props ws.db scope scope_id 1 victim
        rest hvic
      have hexp : victim.status = "expired" := by
        refine hb3 hfresh victim ?_ rfl
        rw [heq]
        exact hvmem
      rcases hvst with h | h <;> rw [h] at hexp <;> exact absurd hexp (by decide)
    · intro hle
      rw [(ha hle).2]
  · intro i c i' c'
    unfold compute_priority_score
    constructor <;> intro h <;> linarith

/-- Witness for the amended C9 at the concrete tie input: the store is
unchanged because the candidate does not strictly dominate on
`importance*0.4 + confidence*0.3`. -/
theorem c9_amended_witness :
    (((process_candidate ev_ws "user" "u1" ev_cand_tie [7] ev_wp
        DEFAULT_RETENTION_DAYS ev_now).2).db.items = ev_ws.db.items ↔
      compute_priority_score (ev_cand_tie.importance.getD 0.5)
          (ev_cand_tie.confidence.getD 0.5) 1 ≤
        compute_priority_score ev_victim.importance ev_victim.confidence 1) ∧
    (∀ i c i' c' : ℚ,
      compute_priority_score i c 1 ≤ compute_priority_score i' c' 1 ↔
        i * 0.4 + c * 0.3 ≤ i' * 0.4 + c' * 0.3) :=
  c9_amended_fixed_recency_both_sides ev_ws "user" "u1" ev_cand_tie [7] ev_wp
    DEFAULT_RETENTION_DAYS ev_now ev_victim [] (by decide) (by decide) (by decide)
    (by decide) (by rfl) (by decide) (by decide) (by decide) (by rfl) (by rfl)
    (by decide)


/-! ## Claim C3: temporal supersession -/

/-- C3, counterexample to the claim as stated: with 21 currently active items
conflicting on the same `(scope, scope_id, type, subject_key)` (all with fact
keys different from the new item's and ids different from the new item's id),
`_apply_temporal_supersede` flips only the 20 most recently updated ones —
`get_conflicting_items_by_subject` is called with `limit=20` — so one
conflicting item is still active afterwards, contradicting "every other
currently active item ... is flipped to superseded". -/
theorem c3_counterexample :
    ((c3cex_st.items.filter (fun it =>
        conflictFilter "user" "u1" "profile" "s" (some "k_new") 5000 it)).length = 21 ∧
      ∀ it ∈ c3cex_st.items, it.memory_id ≠ 99) ∧
    ∃ it ∈ ((apply_temporal_supersede c3cex_st "user" "u1" "profile" "s" "k_new" 99
        wpAuto (some 5000) 5000).2).items,
      conflictFilter "user" "u1" "profile" "s" (some "k_new") 5000 it ∧
        it.status = "active" := by
  with_unfolding_all decide

set_option maxRecDepth 2000000 in
/-- C3 as amended: (i) when an item becomes active for a temporal-conflict
-eligible type, every other currently active item in the same
`(scope, scope_id, type, subject_key)` with a different fact key — among the
up-to-20 most recently updated conflicts the source fetches; all of them
whenever at most 20 exist — is flipped to `superseded` with
`invalid_at = now` and `superseded_by` the new item's id; and (ii) in the
two-item scenario, inserting fact A then fact B about the same subject key
leaves exactly B active and A superseded by B, and an `as_of` read strictly
between A's `valid_at` and A's `invalid_at` returns A and not B. -/
theorem c3_temporal_supersession (st : DBState) (scope scope_id mem_type subject_key
      fact_key : String) (new_memory_id : Nat) (wp : MemoryWritePolicy) (t now : Time)
    (hsup : wp.enable_temporal_supersede = true)
    (htype : mem_type ∈ wp.temporal_conflict_types)
    (hsk : subject_key ≠ "")
    (hcount : (st.items.filter (fun it =>
      conflictFilter scope scope_id mem_type subject_key (some fact_key) now it)).length
        ≤ 20) :
    (∀ it ∈ st.items,
      conflictFilter scope scope_id mem_type subject_key (some fact_key) now it →
      it.memory_id ≠ new_memory_id →
      { it with
          status := "superseded", invalid_at := some t,
          superseded_by := some new_memory_id, updated_at := t } ∈
        ((apply_temporal_supersede st scope scope_id mem_type subject_key fact_key
          new_memory_id wp (some t) now).2).items) ∧
    ((((process_candidate ((process_candidate scen_ws0 "user" "u1" scenA [50] wpAuto
        DEFAULT_RETENTION_DAYS 1000).2) "user" "u1" scenB [51] wpAuto
        DEFAULT_RETENTION_DAYS 2000).2).db.items.map (fun it =>
          (it.memory_id, it.fact_key, it.status)) =
      [(0, "city_beijing", "superseded"), (2, "city_shanghai", "active")]) ∧
    (((process_candidate ((process_candidate scen_ws0 "user" "u1" scenA [50] wpAuto
        DEFAULT_RETENTION_DAYS 1000).2) "user" "u1" scenB [51] wpAuto
        DEFAULT_RETENTION_DAYS 2000).2).db.items.map (fun it =>
          (it.valid_at, it.invalid_at, it.superseded_by)) =
      [(some 1000, some 2000, some 2), (some 2000, none, none)]) ∧
    ((get_active_items_for_scope ((process_candidate ((process_candidate scen_ws0 "user"
        "u1" scenA [50] wpAuto DEFAULT_RETENTION_DAYS 1000).2) "user" "u1" scenB [51]
        wpAuto DEFAULT_RETENTION_DAYS 2000).2).db "user" "u1" 0 45 (some 1500)
        3000).map (fun it => it.fact_key) = ["city_beijing"])) := by
  constructor
  · intro it hmem hcf hne
    unfold apply_temporal_supersede
    rw [if_neg (by simp [hsup]), if_neg (not_not_intro htype), if_neg hsk]
    have hconf_all : get_conflicting_items_by_subject st scope scope_id mem_type
        subject_key (some fact_key) 20 now =
        (st.items.filter (fun it => conflictFilter scope scope_id mem_type subject_key
          (some fact_key) now it)).insertionSort updatedAtDesc := by
      unfold get_conflicting_items_by_subject
      rw [if_neg hsk]
      exact List.take_of_length_le (by rw [List.length_insertionSort]; exact hcount)
    have hit_conf : it ∈ get_conflicting_items_by_subject st scope scope_id mem_type
        subject_key (some fact_key) 20 now := by
      rw [hconf_all, List.mem_insertionSort]
      exact List.mem_filter.mpr ⟨hmem, by simpa using hcf⟩
    have hid_mem : it.memory_id ∈ ((get_conflicting_items_by_subject st scope scope_id
        mem_type subject_key (some fact_key) 20 now).filter (fun x =>
          x.memory_id ≠ new_memory_id)).map (fun x => x.memory_id) :=
      List.mem_map_of_mem _ (List.mem_filter.mpr ⟨hit_conf, by simpa using hne⟩)
    rw [if_neg (by
      intro h
      rw [h] at hid_mem
      exact absurd hid_mem (List.not_mem_nil _))]
    unfold supersede_items
    rw [if_neg (by
      intro h
      rw [h] at hid_mem
      exact absurd hid_mem (List.not_mem_nil _))]
    refine List.mem_map.mpr ⟨it, hmem, ?_⟩
    rw [if_pos ⟨hid_mem, hcf.2.2.2.2.1⟩]
    rfl
  · with_unfolding_all decide

set_option maxRecDepth 2000000 in
/-- Witness for the amended C3 at a concrete two-conflict store. -/
theorem c3_temporal_supersession_witness :
    { c3cex_item 0 with
        status := "superseded", invalid_at := some 4000,
        superseded_by := some 99, updated_at := 4000 } ∈
      ((apply_temporal_supersede { c3cex_st with
          items := [c3cex_item 0, c3cex_item 1] } "user" "u1" "profile" "s" "k_new" 99
        wpAuto (some 4000) 3000).2).items :=
  (c3_temporal_supersession { c3cex_st with items := [c3cex_item 0, c3cex_item 1] }
    "user" "u1" "profile" "s" "k_new" 99 wpAuto 4000 3000 (by decide) (by decide)
    (by decide) (by with_unfolding_all decide)).1 (c3cex_item 0)
    (by with_unfolding_all decide) (by with_unfolding_all decide)
    (by decide)

/-! ## Claim C8: relation uniqueness invariant -/

/-- `update_relation` is a per-row map that touches only the confidence,
evidence-count and memory back-reference fields of the matching row. -/
theorem update_relation_track (st : DBState) (rid : Nat) (c : Option ℚ)
    (ec : Option Nat) (m : Option Nat) (mt : Option String) (now : Time) :
    ∃ g : MemoryRelation → MemoryRelation,
      (update_relation st rid c ec m mt now).relations = st.relations.map g ∧
      (∀ r, (g r).scope = r.scope ∧ (g r).scope_id = r.scope_id ∧
        (g r).subject_key = r.subject_key ∧ (g r).predicate = r.predicate ∧
        (g r).status = r.status ∧ (g r).relation_id = r.relation_id ∧
        (g r).object_text = r.object_text) ∧
      (∀ r, r.relation_id = rid → (g r).confidence = c.getD r.confidence ∧
        (g r).evidence_count = ec.getD r.evidence_count) ∧
      (∀ r, r.relation_id ≠ rid → g r = r) := by
  unfold update_relation
  by_cases hnone : c = none ∧ ec = none ∧ m = none ∧ mt = none
  · rw [if_pos hnone]
    refine ⟨id, by simp, fun r => by simp, fun r _ => ?_, fun r _ => rfl⟩
    rw [hnone.1, hnone.2.1]
    exact ⟨rfl, rfl⟩
  · rw [if_neg hnone]
    refine ⟨_, rfl, fun r => ?_, fun r hr => ?_, fun r hr => ?_⟩
    · by_cases h0 : r.relation_id = rid
      · rw [if_pos h0]
        exact ⟨rfl, rfl, rfl, rfl, rfl, rfl, rfl⟩
      · rw [if_neg h0]
        exact ⟨rfl, rfl, rfl, rfl, rfl, rfl, rfl⟩
    · rw [if_pos hr]
      exact ⟨rfl, rfl⟩
    · rw [if_neg hr]

/-- The row transformation of `supersede_conflicting_relations`: it preserves
keys, ids and objects, only ever demotes `active` rows, flips exactly the
conflicting actives and leaves everything else alone. -/
theorem supersede_conflicting_track (st : DBState)
    (scope scope_id subject_key predicate : String) (keep : Nat) (object_text : String)
    (ts : Time) :
    ∃ g : MemoryRelation → MemoryRelation,
      ((supersede_conflicting_relations st scope scope_id subject_key predicate keep
        object_text ts).2).relations = st.relations.map g ∧
      (∀ r, (g r).scope = r.scope ∧ (g r).scope_id = r.scope_id ∧
        (g r).subject_key = r.subject_key ∧ (g r).predicate = r.predicate ∧
        (g r).relation_id = r.relation_id ∧ (g r).object_text = r.object_text ∧
        (g r).confidence = r.confidence ∧ (g r).evidence_count = r.evidence_count) ∧
      (∀ r, (g r).status = "active" → r.status = "active") ∧
      (∀ r, (r.scope = scope ∧ r.scope_id = scope_id ∧ r.subject_key = subject_key ∧
          r.predicate = predicate ∧ r.status = "active" ∧ r.relation_id ≠ keep ∧
          r.object_text ≠ object_text) →
        g r = { r with
          status := "superseded", invalid_at := some ts,
          superseded_by := some keep, updated_at := ts }) ∧
      (∀ r, ¬(r.scope = scope ∧ r.scope_id = scope_id ∧ r.subject_key = subject_key ∧
          r.predicate = predicate ∧ r.status = "active" ∧ r.relation_id ≠ keep ∧
          r.object_text ≠ object_text) → g r = r) := by
  unfold supersede_conflicting_relations
  refine ⟨_, rfl, fun r => ?_, fun r => ?_, fun r hr => ?_, fun r hr => ?_⟩
  · by_cases h0 : r.scope = scope ∧ r.scope_id = scope_id ∧ r.subject_key = subject_key ∧
        r.predicate = predicate ∧ r.status = "active" ∧ r.relation_id ≠ keep ∧
        r.object_text ≠ object_text
    · rw [if_pos h0]
      exact ⟨rfl, rfl, rfl, rfl, rfl, rfl, rfl, rfl⟩
    · rw [if_neg h0]
      exact ⟨rfl, rfl, rfl, rfl, rfl, rfl, rfl, rfl⟩
  · by_cases h0 : r.scope = scope ∧ r.scope_id = scope_id ∧ r.subject_key = subject_key ∧
        r.predicate = predicate ∧ r.status = "active" ∧ r.relation_id ≠ keep ∧
        r.object_text ≠ object_text
    · rw [if_pos h0]
      intro h
      exact absurd h (by simp)
    · rw [if_neg h0]
      exact fun h => h
  · rw [if_pos hr]
  · rw [if_neg hr]

/-- A successful signature lookup returns an active stored row with the
requested key and object text. -/
theorem signature_lookup_some (st : DBState)
    (scope scope_id subject_key predicate object_text : String) (now : Time)
    (r0 : MemoryRelation)
    (h : get_active_relation_by_signature st scope scope_id subject_key predicate
      object_text now = some r0) :
    r0 ∈ st.relations ∧ r0.scope = scope ∧ r0.scope_id = scope_id ∧
      r0.subject_key = subject_key ∧ r0.predicate = predicate ∧
      r0.object_text = object_text ∧ r0.status = "active" := by
  unfold get_active_relation_by_signature at h
  rcases hl : (st.relations.filter (fun x =>
      relationSignatureFilter scope scope_id subject_key predicate object_text now
        x)).insertionSort relationUpdatedAtDesc with _ | ⟨a, l⟩
  · rw [hl] at h
    exact absurd h (by simp)
  · rw [hl] at h
    have ha : a = r0 := by simpa using h
    subst ha
    have hmem : a ∈ (st.relations.filter (fun x =>
        relationSignatureFilter scope scope_id subject_key predicate object_text now
          x)).insertionSort relationUpdatedAtDesc := by
      rw [hl]
      exact List.mem_cons_self a l
    have h2 := (List.mem_insertionSort relationUpdatedAtDesc).mp hmem
    have h3 := List.mem_filter.mp h2
    have h4 : relationSignatureFilter scope scope_id subject_key predicate object_text
        now a := by simpa using h3.2
    exact ⟨h3.1, h4.1, h4.2.1, h4.2.2.1, h4.2.2.2.1, h4.2.2.2.2.1, h4.2.2.2.2.2.1⟩

/-- A failed signature lookup means no stored row matches the filter. -/
theorem signature_lookup_none (st : DBState)
    (scope scope_id subject_key predicate object_text : String) (now : Time)
    (h : get_active_relation_by_signature st scope scope_id subject_key predicate
      object_text now = none) :
    ∀ r ∈ st.relations,
      ¬ relationSignatureFilter scope scope_id subject_key predicate object_text now r := by
  intro r hr hfilter
  unfold get_active_relation_by_signature at h
  have hmem : r ∈ (st.relations.filter (fun x =>
      relationSignatureFilter scope scope_id subject_key predicate object_text now
        x)).insertionSort relationUpdatedAtDesc := by
    rw [List.mem_insertionSort]
    exact List.mem_filter.mpr ⟨hr, by simpa using hfilter⟩
  rcases hl : (st.relations.filter (fun x =>
      relationSignatureFilter scope scope_id subject_key predicate object_text now
        x)).insertionSort relationUpdatedAtDesc with _ | ⟨a, l⟩
  · rw [hl] at hmem
    exact absurd hmem (List.not_mem_nil r)
  · rw [hl] at h
    exact absurd h (by simp)

/-- C8: `upsert_relation` preserves the at-most-one-active-relation-per-key
invariant; when an active relation with the exact same `object_text` exists
its confidence and evidence count are raised by `max` and no row is inserted
(the re-affirmed triple stays active — it never supersedes itself);
otherwise a new active relation is inserted and every other active relation
sharing the key with a strictly different `object_text` is superseded with
`superseded_by` pointing at the kept relation. -/
theorem c8_relation_uniqueness (st : DBState)
    (scope scope_id subject_key predicate object_text : String) (confidence : ℚ)
    (evidence_count : Nat) (memory_id : Option Nat) (memory_type : Option String)
    (now : Time)
    (hs : scope ≠ "") (hsid : scope_id ≠ "") (hsk : subject_key ≠ "")
    (hpred : predicate ≠ "") (hobj : object_text ≠ "")
    (hpw : AtMostOneActiveRelation st.relations)
    (hwin : ∀ r ∈ st.relations, r.status = "active" → r.invalid_at = none ∧
      (r.valid_at = none ∨ ∃ t0, r.valid_at = some t0 ∧ t0 ≤ now))
    (hfresh : ∀ r ∈ st.relations, r.relation_id < st.next_id) :
    AtMostOneActiveRelation (((upsert_relation st scope scope_id subject_key predicate
      object_text confidence evidence_count memory_id memory_type now).2).relations) ∧
    (∀ r0, get_active_relation_by_signature st scope scope_id subject_key predicate
        object_text now = some r0 →
      (((upsert_relation st scope scope_id subject_key predicate object_text confidence
        evidence_count memory_id memory_type now).2).relations.length =
          st.relations.length) ∧
      ∃ r' ∈ ((upsert_relation st scope scope_id subject_key predicate object_text
          confidence evidence_count memory_id memory_type now).2).relations,
        r'.relation_id = r0.relation_id ∧ r'.status = "active" ∧
        r'.confidence = max r0.confidence confidence ∧
        r'.evidence_count = max r0.evidence_count evidence_count ∧
        r'.object_text = object_text) ∧
    (get_active_relation_by_signature st scope scope_id subject_key predicate object_text
        now = none →
      (((upsert_relation st scope scope_id subject_key predicate object_text confidence
        evidence_count memory_id memory_type now).2).relations.length =
          st.relations.length + 1) ∧
      (∃ r' ∈ ((upsert_relation st scope scope_id subject_key predicate object_text
          confidence evidence_count memory_id memory_type now).2).relations,
        r'.relation_id = st.next_id ∧ r'.status = "active" ∧ r'.scope = scope ∧
        r'.scope_id = scope_id ∧ r'.subject_key = subject_key ∧
        r'.predicate = predicate ∧ r'.object_text = object_text) ∧
      (∀ r ∈ st.relations, r.scope = scope → r.scope_id = scope_id →
        r.subject_key = subject_key → r.predicate = predicate → r.status = "active" →
        r.object_text ≠ object_text →
        { r with
          status := "superseded", invalid_at := some now,
          superseded_by := some st.next_id, updated_at := now } ∈
          ((upsert_relation st scope scope_id subject_key predicate object_text
            confidence evidence_count memory_id memory_type now).2).relations)) := by
  have hguard : ¬(scope = "" ∨ scope_id = "" ∨ subject_key = "" ∨ predicate = "" ∨
      object_text = "") := by
    simp [hs, hsid, hsk, hpred, hobj]
  unfold upsert_relation
  rw [if_neg hguard]
  rcases hlook : get_active_relation_by_signature st scope scope_id subject_key predicate
    object_text now with _ | r0
  · dsimp only
    obtain ⟨g, hmapG, gkeys, gact, gflip, gkeep⟩ := supersede_conflicting_track
      ((insert_relation st scope scope_id subject_key predicate object_text confidence
        evidence_count "active" (some now) none none memory_id memory_type now).2)
      scope scope_id subject_key predicate
      ((insert_relation st scope scope_id subject_key predicate object_text confidence
        evidence_count "active" (some now) none none memory_id memory_type now).1).relation_id
      object_text now
    have hrels : ((insert_relation st scope scope_id subject_key predicate object_text
        confidence evidence_count "active" (some now) none none memory_id memory_type
        now).2).relations = st.relations ++
          [(insert_relation st scope scope_id subject_key predicate object_text
            confidence evidence_count "active" (some now) none none memory_id memory_type
            now).1] := rfl
    rw [hrels] at hmapG
    rw [hmapG, List.map_append]
    have hgnew : g ((insert_relation st scope scope_id subject_key predicate object_text
        confidence evidence_count "active" (some now) none none memory_id memory_type
        now).1) = (insert_relation st scope scope_id subject_key predicate object_text
        confidence evidence_count "active" (some now) none none memory_id memory_type
        now).1 := by
      apply gkeep
      intro h
      exact h.2.2.2.2.2.1 rfl
    have hhit : ∀ r ∈ st.relations, r.scope = scope → r.scope_id = scope_id →
        r.subject_key = subject_key → r.predicate = predicate → r.status = "active" →
        r.object_text ≠ object_text →
        (r.scope = scope ∧ r.scope_id = scope_id ∧ r.subject_key = subject_key ∧
          r.predicate = predicate ∧ r.status = "active" ∧
          r.relation_id ≠ ((insert_relation st scope scope_id subject_key predicate
            object_text confidence evidence_count "active" (some now) none none memory_id
            memory_type now).1).relation_id ∧ r.object_text ≠ object_text) := by
      intro r hr e1 e2 e3 e4 e5 e6
      exact ⟨e1, e2, e3, e4, e5, Nat.ne_of_lt (hfresh r hr), e6⟩
    have hnoact : ∀ r ∈ st.relations, r.status = "active" → r.scope = scope →
        r.scope_id = scope_id → r.subject_key = subject_key → r.predicate = predicate →
        r.object_text ≠ object_text := by
      intro r hr hact e1 e2 e3 e4 heq
      refine signature_lookup_none st scope scope_id subject_key predicate object_text
        now hlook r hr ?_
      obtain ⟨hinv, hval⟩ := hwin r hr hact
      exact ⟨e1, e2, e3, e4, heq, hact, hval, Or.inl hinv⟩
    refine ⟨?_, ?_, ?_⟩
    · unfold AtMostOneActiveRelation
      rw [List.pairwise_append]
      refine ⟨?_, by simp, ?_⟩
      · rw [List.pairwise_map]
        refine List.Pairwise.imp ?_ hpw
        intro a b hab haact hbact hkey
        apply hab (gact a haact) (gact b hbact)
        unfold sameRelKey at hkey ⊢
        obtain ⟨k1, k2, k3, k4⟩ := hkey
        rw [(gkeys a).1, (gkeys b).1] at k1
        rw [(gkeys a).2.1, (gkeys b).2.1] at k2
        rw [(gkeys a).2.2.1, (gkeys b).2.2.1] at k3
        rw [(gkeys a).2.2.2.1, (gkeys b).2.2.2.1] at k4
        exact ⟨k1, k2, k3, k4⟩
      · intro a ha b hb
        rw [List.mem_map] at ha
        obtain ⟨r, hr, rfl⟩ := ha
        simp only [List.map_cons, List.map_nil, List.mem_singleton] at hb
        subst hb
        intro haact hbact hkey
        rw [hgnew] at hkey
        have hract : r.status = "active" := gact r haact
        unfold sameRelKey at hkey
        obtain ⟨k1, k2, k3, k4⟩ := hkey
        rw [(gkeys r).1] at k1
        rw [(gkeys r).2.1] at k2
        rw [(gkeys r).2.2.1] at k3
        rw [(gkeys r).2.2.2.1] at k4
        have e1 : r.scope = scope := k1
        have e2 : r.scope_id = scope_id := k2
        have e3 : r.subject_key = subject_key := k3
        have e4 : r.predicate = predicate := k4
        by_cases hoe : r.object_text = object_text
        · exact hnoact r hr hract e1 e2 e3 e4 hoe
        · have hg := gflip r (hhit r hr e1 e2 e3 e4 hract hoe)
          rw [hg] at haact
          simp at haact
    · intro r0 habs
      exact absurd habs (by simp)
    · intro _
      refine ⟨by simp, ?_, ?_⟩
      · refine ⟨g ((insert_relation st scope scope_id subject_key predicate object_text
          confidence evidence_count "active" (some now) none none memory_id memory_type
          now).1), by simp, ?_⟩
        rw [hgnew]
        exact ⟨rfl, rfl, rfl, rfl, rfl, rfl, rfl⟩
      · intro r hr e1 e2 e3 e4 e5 e6
        have hg := gflip r (hhit r hr e1 e2 e3 e4 e5 e6)
        have hmem : g r ∈ List.map g st.relations ++ List.map g
            [(insert_relation st scope scope_id subject_key predicate object_text
              confidence evidence_count "active" (some now) none none memory_id
              memory_type now).1] :=
          List.mem_append_left _ (List.mem_map_of_mem g hr)
        rw [hg] at hmem
        exact hmem
  · dsimp only
    obtain ⟨hr0mem, f1, f2, f3, f4, f5, f6⟩ := signature_lookup_some st scope scope_id
      subject_key predicate object_text now r0 hlook
    obtain ⟨u, hmapU, ukeys, uupd, ukeep⟩ := update_relation_track st r0.relation_id
      (some (max r0.confidence confidence)) (some (max r0.evidence_count evidence_count))
      memory_id memory_type now
    obtain ⟨g, hmapG, gkeys, gact, gflip, gkeep⟩ := supersede_conflicting_track
      (update_relation st r0.relation_id (some (max r0.confidence confidence))
        (some (max r0.evidence_count evidence_count)) memory_id memory_type now)
      scope scope_id subject_key predicate r0.relation_id object_text now
    rw [hmapU, List.map_map] at hmapG
    rw [hmapG]
    have hrid : (u r0).relation_id = r0.relation_id := (ukeys r0).2.2.2.2.2.1
    have hgu : g (u r0) = u r0 := gkeep (u r0) (fun h => h.2.2.2.2.2.1 hrid)
    refine ⟨?_, ?_, ?_⟩
    · unfold AtMostOneActiveRelation
      rw [List.pairwise_map]
      refine List.Pairwise.imp ?_ hpw
      intro a b hab
      simp only [Function.comp_apply]
      intro haact hbact hkey
      have haA : a.status = "active" := by
        have h1 := gact (u a) haact
        rw [(ukeys a).2.2.2.2.1] at h1
        exact h1
      have hbA : b.status = "active" := by
        have h1 := gact (u b) hbact
        rw [(ukeys b).2.2.2.2.1] at h1
        exact h1
      apply hab haA hbA
      unfold sameRelKey at hkey ⊢
      obtain ⟨k1, k2, k3, k4⟩ := hkey
      rw [(gkeys (u a)).1, (ukeys a).1, (gkeys (u b)).1, (ukeys b).1] at k1
      rw [(gkeys (u a)).2.1, (ukeys a).2.1, (gkeys (u b)).2.1, (ukeys b).2.1] at k2
      rw [(gkeys (u a)).2.2.1, (ukeys a).2.2.1, (gkeys (u b)).2.2.1, (ukeys b).2.2.1] at k3
      rw [(gkeys (u a)).2.2.2.1, (ukeys a).2.2.2.1, (gkeys (u b)).2.2.2.1,
        (ukeys b).2.2.2.1] at k4
      exact ⟨k1, k2, k3, k4⟩
    · intro r0' heq
      have heq' : r0 = r0' := Option.some.inj heq
      subst heq'
      refine ⟨by simp, ?_⟩
      refine ⟨g (u r0), List.mem_map_of_mem (g ∘ u) hr0mem, ?_, ?_, ?_, ?_, ?_⟩
      · rw [hgu]
        exact hrid
      · rw [hgu, (ukeys r0).2.2.2.2.1]
        exact f6
      · rw [hgu]
        exact (uupd r0 rfl).1
      · rw [hgu]
        exact (uupd r0 rfl).2
      · rw [hgu, (ukeys r0).2.2.2.2.2.2]
        exact f5
    · intro habs
      exact absurd habs (by simp)

/-- Closed instance of the C8 theorem: upserting a conflicting `object_text`
into a one-relation store keeps the per-key uniqueness invariant. -/
theorem c8_relation_uniqueness_witness :
    AtMostOneActiveRelation ((upsert_relation c8w_st "user" "u1" "alice" "likes" "coffee"
      (3/4) 2 none none 100).2).relations :=
  (c8_relation_uniqueness c8w_st "user" "u1" "alice" "likes" "coffee" (3/4) 2 none none
    100 (by decide) (by decide) (by decide) (by decide) (by decide)
    (by unfold AtMostOneActiveRelation c8w_st; simp)
    (fun r hr => by
      rw [show c8w_st.relations = [c8w_rel] from rfl, List.mem_singleton] at hr
      subst hr
      exact fun _ => ⟨rfl, Or.inl rfl⟩)
    (fun r hr => by
      rw [show c8w_st.relations = [c8w_rel] from rfl, List.mem_singleton] at hr
      subst hr
      exact Nat.zero_lt_one)).1

/-- Closed instance of the C5 theorem: the single pending event of `c5w_st`
is rescheduled with its attempt count bumped after a failure. -/
theorem c5_retry_and_dead_letter_witness :
    retryUpdate RETRY_MAX_ATTEMPTS RETRY_BASE_DELAY_SECONDS RETRY_MAX_DELAY_SECONDS
      (strTake "boom" 500) 50 c5w_ev ∈
      ((mark_events_retry c5w_st [7] "boom" RETRY_MAX_ATTEMPTS RETRY_BASE_DELAY_SECONDS
        RETRY_MAX_DELAY_SECONDS 50).2).events :=
  (c5_retry_and_dead_letter c5w_st [7] "boom" 50 c5w_ev
    (List.mem_singleton_self c5w_ev) (by decide) rfl rfl).1

/-- Closed instance of the C6 theorem: after a failing extraction the group's
event stays unprocessed with its attempt count bumped. -/
theorem c6_all_or_nothing_group_marking_witness :
    ∃ ev' ∈ ((process_group c6w_pc (Except.error "x") c6w_ws [c5w_ev] 50).2).db.events,
      ev'.event_id = c5w_ev.event_id ∧ ev'.processed = false ∧
        ev'.attempt_count = c5w_ev.attempt_count + 1 :=
  (c6_all_or_nothing_group_marking c6w_pc (fun ws c => rfl) (Except.error "x") c6w_ws
    [c5w_ev] 50 (by decide) (by decide)).1 "x" rfl c5w_ev
    (List.mem_singleton_self c5w_ev) (by decide)

/-- Closed instance of the C7 theorem: a nonempty selection from `c7w_item`
stays within the read policy's token budget, overhead included. -/
theorem c7_budget_enforcement_witness :
    overhead_tokens +
      ((apply_budget [(c7w_item, 1)] c7w_policy).map
        (fun it => estimate_tokens (format_single_item it))).sum +
      ((select_relation_lines_with_budget [] (apply_budget [(c7w_item, 1)] c7w_policy)
        c7w_policy 5).map estimate_tokens).sum ≤ c7w_policy.max_tokens :=
  (c7_budget_enforcement [(c7w_item, 1)] [] c7w_policy 5).2.2
    (Or.inl (by with_unfolding_all decide))

end LTM
